import Mathlib

/-!
Verification of the PARTS package-resolution and parametric-drawing core.

The definitions below are a shallow embedding of the Python sources under
`src/`: `src/packages/outline_db.py`, `src/packages/resolve.py`,
`src/packages/model.py`, `src/packages/registry.py`,
`src/packages/axial_diode.py`, `src/packages/tht_helpers.py`,
`src/packages/to204.py` and `src/core/geometry.py`.  Python dictionaries
become association lists with replace-or-append update semantics, floats
become elements of a linear ordered field (instantiated at `ℚ` for
concrete evaluation), fallible operations return `Option`, and canvas
side effects become explicit lists of drawing operations.
-/

namespace PARTS

/-- Characters remaining after Python `str.strip()`: drop leading and
trailing whitespace. -/
def chars_strip (cs : List Char) : List Char :=
  ((cs.dropWhile Char.isWhitespace).reverse.dropWhile Char.isWhitespace).reverse

/-- Python `str.strip()` over the character list of a string. -/
def py_strip (s : String) : String := String.mk (chars_strip s.data)

/-- Python `str.upper()` (ASCII, as used by the registry keys). -/
def py_upper (s : String) : String := String.mk (s.data.map Char.toUpper)

/-- Python `str.lower()` (ASCII, as used by qualifier tokens). -/
def py_lower (s : String) : String := String.mk (s.data.map Char.toLower)

/-- Python `str.replace(c, "")`: remove every occurrence of a character. -/
def py_remove (c : Char) (s : String) : String :=
  String.mk (s.data.filter (fun x => x ≠ c))

/-- Split a character list at every occurrence of the separator, keeping
empty segments, as Python `str.split(sep)` does. -/
def chars_split (c : Char) : List Char → List (List Char)
  | [] => [[]]
  | x :: xs =>
    let rest := chars_split c xs
    if x = c then [] :: rest
    else
      match rest with
      | [] => [[x]]
      | r :: rs => (x :: r) :: rs

/-- Python `str.split(sep)` for a one-character separator. -/
def py_split_char (c : Char) (s : String) : List String :=
  (chars_split c s.data).map String.mk

/-- A Python numeric literal in decimal form: the value `mant / 10 ^ exp10`.
Structural equality of this representation coincides with Python float
equality on the registry's literals, and it evaluates in the kernel. -/
structure pyfloat_t where
  mant : Int
  exp10 : Nat
  deriving DecidableEq, Repr

instance (n : Nat) : OfNat pyfloat_t n := ⟨⟨(n : Int), 0⟩⟩

instance : Neg pyfloat_t := ⟨fun x => ⟨-x.mant, x.exp10⟩⟩

instance : OfScientific pyfloat_t :=
  ⟨fun m b e =>
    if b then ⟨(m : Int), e⟩ else ⟨(m : Int) * (10 : Int) ^ e, 0⟩⟩

/-- Numeric value of a decimal literal in a division ring. -/
def pyfloat_val (α : Type) [DivisionRing α] (x : pyfloat_t) : α :=
  (x.mant : α) / (10 : α) ^ x.exp10

/-- Parameter values stored in the outline registry: strings, numbers,
booleans, and lists of strings (the accumulated qualifier list). -/
inductive value_t where
  | str (s : String)
  | num (q : pyfloat_t)
  | boolean (b : Bool)
  | strList (xs : List String)
  deriving DecidableEq, Repr

/-- A Python `dict` with `String` keys, modelled as an association list
whose update replaces an existing binding in place or appends a new one. -/
abbrev dict_t (β : Type) := List (String × β)

/-- Dictionary lookup (`d.get(k)`): the value bound to the first matching key. -/
def dict_lookup {β : Type} (d : dict_t β) (k : String) : Option β :=
  (d.find? (fun e => e.1 == k)).map (fun e => e.2)

/-- Dictionary membership test (`k in d`). -/
def dict_contains {β : Type} (d : dict_t β) (k : String) : Bool :=
  d.any (fun e => e.1 == k)

/-- Dictionary assignment (`d[k] = v`): replace the existing binding if
present, otherwise append. -/
def dict_set {β : Type} (d : dict_t β) (k : String) (v : β) : dict_t β :=
  if dict_contains d k then d.map (fun e => if e.1 == k then (k, v) else e)
  else d ++ [(k, v)]

/-- Dictionary merge (`d.update(other)`): assign every binding of `other`
into `d`, in order. -/
def dict_update {β : Type} (d other : dict_t β) : dict_t β :=
  other.foldl (fun acc e => dict_set acc e.1 e.2) d

/-- Outline record from `outline_db.py`: entries of the `OUTLINES` table
built by `_register_outline` (`family_id` and `params` keys optional). -/
structure outline_t where
  id : String
  domain : String
  group : String
  family_id : Option String := none
  params : Option (dict_t value_t) := none
  deriving DecidableEq, Repr

/-- Variant record from `outline_db.py`: entries of the `PACKAGE_VARIANTS`
table built by `_register_variant`. -/
structure variant_t where
  base_id : String
  variant_id : String
  overrides : dict_t value_t
  deriving DecidableEq, Repr

/-- The three registry tables of `outline_db.py`. -/
structure db_t where
  outlines : dict_t outline_t
  aliases : dict_t String
  variants : dict_t variant_t
  deriving DecidableEq, Repr

/-- Embedding of `_normalise_alias_key`: strip, uppercase, and remove
spaces and underscores. -/
def normalise_alias_key (raw : String) : String :=
  if raw = "" then ""
  else py_remove '_' (py_remove ' ' (py_upper (py_strip raw)))

/-- Embedding of `_register_alias`. -/
def register_alias (db : db_t) (al canonical_id : String) : db_t :=
  let key := normalise_alias_key al
  if key ≠ "" then { db with aliases := dict_set db.aliases key canonical_id }
  else db

/-- Embedding of `_register_outline`. -/
def register_outline (db : db_t) (canonical_id domain group : String)
    (family_id : Option String) (params : Option (dict_t value_t))
    (aliases : List String) : db_t :=
  let entry : outline_t :=
    { id := canonical_id, domain := domain, group := group,
      family_id := family_id, params := params }
  let db := { db with outlines := dict_set db.outlines canonical_id entry }
  aliases.foldl (fun db al => register_alias db al canonical_id) db

/-- Embedding of `_register_variant`. -/
def register_variant (db : db_t) (variant_id base_id : String)
    (overrides : dict_t value_t) (aliases : List String) : db_t :=
  let record : variant_t :=
    { base_id := base_id, variant_id := variant_id, overrides := overrides }
  let key := normalise_alias_key variant_id
  let db :=
    if key ≠ "" then { db with variants := dict_set db.variants key record }
    else db
  aliases.foldl
    (fun db al =>
      let alias_key := normalise_alias_key al
      if alias_key ≠ "" then
        { db with variants := dict_set db.variants alias_key record }
      else db)
    db

/-- The `do_groups` catalogue list of `_seed_full_outline_registry`. -/
def do_groups : List (String × List String) :=
  [ ("Button Rectifier", ["DO-217"]),
    ("Disc Type", ["DO-200"]),
    ("Flanged Mount Family", ["DO-211"]),
    ("Leadless Family", ["DO-213"]),
    ("Lead Mounted Family", ["DO-204"]),
    ("Plastic Surface-Mount Family",
      ["DO-214", "DO-215", "DO-216", "DO-218", "DO-219", "DO-220",
       "DO-221", "DO-222"]),
    ("Round Body Axial Lead",
      ["DO-201-AA", "DO-202-AA", "DO-204-AA", "DO-204-AC", "DO-204-AF",
       "DO-204-AG", "DO-204-AH", "DO-204-AL"]),
    ("Round Body Axial Type", ["DO-201"]),
    ("Single-End Press-Fit", ["DO-208", "DO-209"]),
    ("Stud-Hex Base", ["DO-203", "DO-205"]),
    ("Terminal Stud Axial Lead", ["DO-203-AB"]) ]

/-- The `to_groups` catalogue list of `_seed_full_outline_registry`. -/
def to_groups : List (String × List String) :=
  [ ("Axial Leads",
      ["TO-9", "TO-42", "TO-72", "TO-73", "TO-74", "TO-75", "TO-76",
       "TO-77", "TO-78", "TO-79", "TO-80", "TO-96", "TO-97", "TO-99",
       "TO-100", "TO-101", "TO-205-AA", "TO-205-AB", "TO-206-AA",
       "TO-205-AC", "TO-205-AD", "TO-206-AB", "TO-233-AA"]),
    ("Ceramic No Lead", ["TO-276"]),
    ("Coaxial Type", ["TO-215"]),
    ("Disc Type Family", ["TO-200"]),
    ("Diamond Base",
      ["TO-37", "TO-66", "TO-204-AA", "TO-204-AB", "TO-213-AB",
       "TO-213-AC"]),
    ("Double-Ended Flatpack",
      ["TO-87", "TO-88", "TO-89", "TO-90", "TO-91", "TO-95"]),
    ("Dual-in-Package", ["TO-250"]),
    ("Flange-Mounted Header Family",
      ["TO-204", "TO-213", "TO-218", "TO-219", "TO-220", "TO-238",
       "TO-257", "TO-258", "TO-259", "TO-262", "TO-264", "TO-267",
       "TO-280", "TO-281"]),
    ("Flange-Mounted Package", ["TO-273"]),
    ("Flange-Mounted Peripheral Terminal", ["TO-247", "TO-254"]),
    ("Flange-Mounted Rectangular Base", ["TO-244"]),
    ("Flat Index Axial Leaded", ["TO-92"]),
    ("Flat Leads", ["TO-225-AA", "TO-232-AA"]),
    ("Flat Mounted Transistor", ["TO-256", "TO-282"]),
    ("Flexible Terminals", ["TO-209"]),
    ("Header Family",
      ["TO-205", "TO-206", "TO-236", "TO-237", "TO-243", "TO-251",
       "TO-252", "TO-260", "TO-263", "TO-268", "TO-279"]),
    ("Multiple-Ended Flatpack", ["TO-84", "TO-85", "TO-86"]),
    ("Opto Family Insertion Mount", ["TO-266"]),
    ("Plastic Clip Mounted Package", ["TO-274"]),
    ("Power Package", ["TO-265", "TO-270", "TO-272", "TO-275"]),
    ("Quad Flack Pack Surface Mount", ["TO-271"]),
    ("Small Outline", ["TO-269"]),
    ("Small Outline Transistor (SOT)", ["TO-253", "TO-261"]),
    ("Solid Terminals", ["TO-208"]),
    ("Stud-Mount Flex Lead", ["TO-94"]),
    ("Stud-Mounted Stripline", ["TO-216"]),
    ("Tab-Mounted Peripheral Leads", ["TO-202"]),
    ("Terminal Strip Power Module", ["TO-240"]) ]

/-- The `gen_groups` catalogue list of `_seed_full_outline_registry`. -/
def gen_groups : List (String × List String) :=
  [ ("Axial Diode", ["R-6"]),
    ("Axial Diode", ["T-18"]) ]

/-- Embedding of `_seed_full_outline_registry`: register every catalogue
outline as known but not renderable. -/
def seed_full_outline_registry (db : db_t) : db_t :=
  let db := do_groups.foldl
    (fun db g => g.2.foldl
      (fun db i => register_outline db i "DO" g.1 none none []) db) db
  let db := to_groups.foldl
    (fun db g => g.2.foldl
      (fun db i => register_outline db i "TO" g.1 none none []) db) db
  gen_groups.foldl
    (fun db g => g.2.foldl
      (fun db i => register_outline db i "GEN" g.1 none none []) db) db

/-- Embedding of `_seed_current_renderables`: overlay renderable outlines
with family ids and mechanical parameters, and register variants. -/
def seed_current_renderables (db : db_t) : db_t :=
  let axial_family := "axial_round_body"
  let db := register_outline db "DO-201-AA" "DO" "Round Body Axial Lead"
    (some axial_family)
    (some [("len", .num 8.35), ("dia", .num 5.3), ("material", .str "epoxy")])
    ["DO-27"]
  let db := register_outline db "DO-204-AH" "DO" "Round Body Axial Lead"
    (some axial_family)
    (some [("len", .num 3.9), ("dia", .num 1.7), ("material", .str "glass")])
    ["DO-35"]
  let db := register_outline db "DO-204-AL" "DO" "Round Body Axial Lead"
    (some axial_family)
    (some [("len", .num 4.7), ("dia", .num 2.7), ("material", .str "epoxy")])
    ["DO-41"]
  let db := register_outline db "DO-204-AC" "DO" "Round Body Axial Lead"
    (some axial_family)
    (some [("len", .num 7.0), ("dia", .num 3.6), ("material", .str "epoxy")])
    ["DO-15"]
  let db := register_outline db "DO-204-AF" "DO" "Round Body Axial Lead"
    (some axial_family)
    (some [("len", .num 9.5), ("dia", .num 5.3), ("material", .str "epoxy")])
    ["DO-29"]
  let db := register_outline db "DO-201-AD" "DO" "Round Body Axial Type"
    (some axial_family)
    (some [("len", .num 9.0), ("dia", .num 5.1), ("material", .str "epoxy")])
    ["DO-201"]
  let db := register_outline db "TO-92" "TO" "Flat Index Axial Leaded"
    (some "to92_moulded")
    (some [("pin_count", .num 3), ("body_w", .num 4.8), ("body_h", .num 4.8),
           ("lead_len", .num 11.0), ("lead_pitch", .num 1.27)])
    ["TO92"]
  let db := register_outline db "TO-204-AA" "TO" "Diamond Base"
    (some "to204_diamond")
    (some [("pin_count", .num 2), ("pin_arc_start_deg", .num 65.0),
           ("pin_arc_stop_deg", .num (-65.0)), ("pin_diameter_mm", .num 1.0),
           ("is_body_pin", .boolean true)])
    ["TO-3", "TO3"]
  let db := register_outline db "TO-205-AD" "TO" "Axial Leads"
    (some "to205_package")
    (some [("pin_count", .num 3), ("pin_diameter_mm", .num 1.0),
           ("pin_connected_to_body", .num 3)])
    ["TO-205", "TO205", "TO-39", "TO39"]
  let db := register_outline db "TO-206-AA" "TO" "Axial Leads"
    (some "to206_package")
    (some [("pin_count", .num 3), ("pin_diameter_mm", .num 1.0),
           ("pin_connected_to_body", .num 3)])
    ["TO-206", "TO206", "TO-18", "TO18"]
  let db := register_outline db "TO-218-AA" "TO" "Flat Leads"
    (some "to218_tab")
    (some [("pin_count", .num 3), ("tab_is_pin", .boolean true)])
    ["TO-218"]
  let db := register_variant db "TO-218-5" "TO-218-AA"
    [("pin_count", .num 5), ("tab_is_pin", .boolean true)] []
  let db := register_outline db "TO-225-AA" "TO" "Flat Leads"
    (some "to225_tab")
    (some [("pin_count", .num 3), ("tab_is_pin", .boolean true)])
    ["TO-126", "TO126"]
  let db := register_outline db "TO-220-AB" "TO" "Flange-Mounted Header Family"
    (some "to220_tab")
    (some [("pin_count", .num 3), ("tab_is_pin", .boolean true),
           ("tab_finish", .str "metallic")])
    ["TO-220", "TO220"]
  let db := register_variant db "TO-220-AA" "TO-220-AB"
    [("pin_count", .num 3), ("tab_is_pin", .boolean false),
     ("tab_finish", .str "metallic")] []
  let db := register_variant db "TO-220-AC" "TO-220-AB"
    [("pin_count", .num 2), ("tab_is_pin", .boolean true),
     ("tab_finish", .str "metallic")] []
  let db := register_variant db "TO-220-AB-5L" "TO-220-AB"
    [("pin_count", .num 5)] ["TO-220-5", "TO220-5", "TO-220-5L"]
  let db := register_variant db "TO-220-AB-6L" "TO-220-AB"
    [("pin_count", .num 6)] ["TO-220-6", "TO220-6", "TO-220-6L"]
  let db := register_variant db "TO-220-AB-7L" "TO-220-AB"
    [("pin_count", .num 7)] ["TO-220-7", "TO220-7", "TO-220-7L"]
  let db := register_variant db "TO-220-F" "TO-220-AB"
    [("pin_count", .num 3), ("tab_is_pin", .boolean true),
     ("tab_finish", .str "insulated")] ["TO220F", "TO-220F"]
  let db := register_outline db "TO-243-AA" "TO" "Header Family"
    (some "to243_tab")
    (some [("body_w", .num 4.5), ("body_h", .num 2.76)])
    ["TO243", "SOT-89", "SOT89"]
  let db := register_variant db "TO-243-AB" "TO-243-AA"
    [("pin_count", .num 3)] ["TO243AB", "SOT-89-2", "SOT89-2"]
  let db := register_variant db "TO-243-6" "TO-243-AA"
    [("pin_count", .num 6)] ["TO243-6", "SOT-89-6", "SOT89-6"]
  let db := register_outline db "TO-247" "TO"
    "Flange-Mounted Peripheral Terminal"
    (some "to247_tab")
    (some [("pin_count", .num 3), ("body_w", .num 20.0),
           ("body_h", .num 15.6), ("lead_len", .num 20.0)])
    ["TO247"]
  let db := register_variant db "TO-247-4" "TO-247"
    [("pin_count", .num 4)] []
  let db := register_outline db "TO-264" "TO" "Flange-Mounted Header Family"
    (some "to264_body")
    (some [("body_mm", .num 20.0), ("height_mm", .num 26.0),
           ("lead_mm", .num 20.0), ("hole_d_mm", .num 3.81),
           ("scallop_d_mm", .num 6.35), ("scallop_y_mm", .num 6.0),
           ("pin_count", .num 3), ("pin_pitch_mm", .num 5.75)])
    ["TO264", "TO-264AA", "TO-3P"]
  let db := register_variant db "TO-264-2" "TO-264"
    [("pin_count", .num 2)] ["TO264-2", "TO-264-2L"]
  let db := register_variant db "TO-264-5" "TO-264"
    [("pin_count", .num 5), ("pin_pitch_mm", .num 3.81)]
    ["TO264-5", "TO-264-5L"]
  let db := register_outline db "DO-213-AB" "DO" "Leadless Family"
    (some "melf")
    (some [("body_length", .num 5), ("body_diameter", .num 2.4),
           ("pad_width", .num 0.55), ("material", .str "glass")])
    ["MELF", "MMB", "SOD-106"]
  let db :=
    ([ ("DO-214-AC",
        [("body_w", value_t.num 4.3), ("body_h", value_t.num 2.6),
         ("pad_w", value_t.num 1.2), ("pad_h", value_t.num 1.45)],
        ["SMA"]),
       ("DO-214-AA",
        [("body_w", value_t.num 4.32), ("body_h", value_t.num 3.62),
         ("pad_w", value_t.num 1.2), ("pad_h", value_t.num 2.1)],
        ["SMB"]),
       ("DO-214-AB",
        [("body_w", value_t.num 6.86), ("body_h", value_t.num 5.9),
         ("pad_w", value_t.num 1.2), ("pad_h", value_t.num 2.97)],
        ["SMC"]) ] :
      List (String × dict_t value_t × List String)).foldl
      (fun db e =>
        register_outline db e.1 "DO" "Plastic Surface-Mount Family"
          (some "smd_2pad") (some e.2.1) e.2.2)
      db
  let db := register_outline db "SOT-23" "TO"
    "Small Outline Transistor (SOT)"
    (some "smd_3lead")
    (some [("body_w", .num 2.9), ("body_h", .num 1.3), ("pad2_w", .num 0.4),
           ("pad2_h", .num 0.6), ("pad2_pitch", .num 1.9),
           ("pad1_w", .num 0.4), ("pad1_h", .num 0.6), ("pin_count", .num 3)])
    ["SOT23", "SOT-23-3", "SOT23-3", "TO-236", "TO-236AA", "SOT-23F"]
  let db := register_variant db "SOT-23-4" "SOT-23"
    [("pin_count", .num 4)] ["SOT23-4", "SOT-23-4L", "SOT23-4L"]
  let db := register_variant db "SOT-23-5" "SOT-23"
    [("pin_count", .num 5)] ["SOT23-5", "SOT-23-5L", "SOT23-5L"]
  let db := register_variant db "SOT-23-6" "SOT-23"
    [("pin_count", .num 6)] ["SOT23-6", "SOT-23-6L", "SOT23-6L"]
  let db := register_variant db "SOT-23-8" "SOT-23"
    [("pin_count", .num 8)] ["SOT23-8", "SOT-23-8L", "SOT23-8L"]
  let db := register_outline db "SOT-323" "EIAJ"
    "Small Outline Transistor (SOT)"
    (some "smd_3lead")
    (some [("body_w", .num 2.2), ("body_h", .num 1.35), ("pad2_w", .num 0.4),
           ("pad2_h", .num 0.425), ("pad2_pitch", .num 1.3),
           ("pad1_w", .num 0.4), ("pad1_h", .num 0.525),
           ("pin_count", .num 3)])
    ["SOT323", "SOT-323-3", "SOT323-3", "SC-70"]
  let db := register_outline db "R-6" "GEN" "Axial Diode"
    (some "axial_round_body")
    (some [("len", .num 8.8), ("dia", .num 8.8), ("material", .str "epoxy")])
    ["R6"]
  let db := register_outline db "T-18" "GEN" "Axial Diode"
    (some "axial_round_body")
    (some [("len", .num 8.8), ("dia", .num 3.5), ("material", .str "epoxy")])
    ["T18"]
  register_outline db "5MM ROUND T/H" "IEC" "Leaded LED"
    (some "led_tht_round")
    (some [("body_d", .num 5.0), ("body_h", .num 8.6),
           ("lead_len", .num 17.0), ("lead_pitch", .num 2.54),
           ("lead_w", .num 0.6)])
    ["LED5MM", "5MMLED"]

/-- The seeded registry state after module import of `outline_db.py`. -/
def PACKAGE_DB : db_t :=
  seed_current_renderables (seed_full_outline_registry ⟨[], [], []⟩)

/-- The seeded `OUTLINES` table. -/
def OUTLINES : dict_t outline_t := PACKAGE_DB.outlines

/-- The seeded `PACKAGE_ALIASES` table. -/
def PACKAGE_ALIASES : dict_t String := PACKAGE_DB.aliases

/-- The seeded `PACKAGE_VARIANTS` table. -/
def PACKAGE_VARIANTS : dict_t variant_t := PACKAGE_DB.variants

/-- Embedding of `resolve.py` `_normalise_lookup`. -/
def normalise_lookup (raw : String) : String :=
  if raw = "" then ""
  else py_remove '_' (py_remove ' ' (py_upper (py_strip raw)))

/-- Embedding of `_split_qualifiers`: split on `@`, trim the base key,
lowercase and trim qualifiers, drop empty qualifier tokens. -/
def split_qualifiers (raw : String) : String × List String :=
  if raw = "" then ("", [])
  else
    let parts := py_split_char '@' raw
    let base := py_strip (parts.headD "")
    let qualifiers := (parts.drop 1).filterMap (fun q =>
      let qt := py_lower (py_strip q)
      if qt = "" then none else some qt)
    (base, qualifiers)

/-- One step of `_apply_qualifiers`: apply a single qualifier token. -/
def apply_qualifier (params : dict_t value_t) (q : String) : dict_t value_t :=
  if q ∈ ["glass", "epoxy", "blue", "metallic", "yellow"] then
    dict_set params "material" (.str q)
  else if q ∈ ["fullpack", "insulated", "f"] then
    dict_set params "tab_finish" (.str "insulated")
  else
    match dict_lookup params "qualifiers" with
    | some (.strList xs) => dict_set params "qualifiers" (.strList (xs ++ [q]))
    | none => dict_set params "qualifiers" (.strList [q])
    | some _ => params

/-- Embedding of `_apply_qualifiers`: apply tokens left to right. -/
def apply_qualifiers (params : dict_t value_t) (qualifiers : List String) :
    dict_t value_t :=
  qualifiers.foldl apply_qualifier params

/-- Embedding of `_resolve_to_ids_and_overrides`, parametrised by the
registry tables: variant, then alias, then direct outline membership. -/
def resolve_to_ids_and_overrides (db : db_t) (raw_key : String) :
    String × String × dict_t value_t :=
  let key := normalise_lookup raw_key
  match dict_lookup db.variants key with
  | some v =>
      (v.base_id, if v.variant_id = "" then v.base_id else v.variant_id,
       v.overrides)
  | none =>
      match dict_lookup db.aliases key with
      | some a => (a, a, [])
      | none =>
          if dict_contains db.outlines key then (key, key, [])
          else ("", "", [])

/-- Embedding of `model.py` `resolved_package_t`. -/
structure resolved_package_t where
  raw_key : String
  canonical_id : String
  print_id : String
  family_id : Option String
  params : dict_t value_t
  qualifiers : List String
  is_renderable : Bool
  deriving DecidableEq, Repr

/-- Embedding of `resolve_package`, parametrised by the registry tables. -/
def resolve_package_db (db : db_t) (raw_package : String) :
    Option resolved_package_t :=
  let bq := split_qualifiers raw_package
  let cpo := resolve_to_ids_and_overrides db bq.1
  if cpo.1 = "" then none
  else
    match dict_lookup db.outlines cpo.1 with
    | none => none
    | some entry =>
        let base_params := entry.params.getD []
        let params := apply_qualifiers (dict_update base_params cpo.2.2) bq.2
        let is_renderable :=
          match entry.family_id with
          | some f => decide (f ≠ "")
          | none => false
        some
          { raw_key := raw_package, canonical_id := cpo.1,
            print_id := cpo.2.1, family_id := entry.family_id,
            params := params, qualifiers := bq.2,
            is_renderable := is_renderable }

/-- Embedding of `resolve_package` applied to the seeded registry. -/
def resolve_package (raw_package : String) : Option resolved_package_t :=
  resolve_package_db PACKAGE_DB raw_package

/-- Chunk 1 of the explicit literal form of the seeded outlines table. -/
def OUTLINES_lit_1 : dict_t outline_t :=
  [ ("DO-217", ⟨"DO-217", "DO", "Button Rectifier", none, none⟩),
    ("DO-200", ⟨"DO-200", "DO", "Disc Type", none, none⟩),
    ("DO-211", ⟨"DO-211", "DO", "Flanged Mount Family", none, none⟩),
    ("DO-213", ⟨"DO-213", "DO", "Leadless Family", none, none⟩),
    ("DO-204", ⟨"DO-204", "DO", "Lead Mounted Family", none, none⟩),
    ("DO-214", ⟨"DO-214", "DO", "Plastic Surface-Mount Family", none, none⟩),
    ("DO-215", ⟨"DO-215", "DO", "Plastic Surface-Mount Family", none, none⟩),
    ("DO-216", ⟨"DO-216", "DO", "Plastic Surface-Mount Family", none, none⟩),
    ("DO-218", ⟨"DO-218", "DO", "Plastic Surface-Mount Family", none, none⟩),
    ("DO-219", ⟨"DO-219", "DO", "Plastic Surface-Mount Family", none, none⟩),
    ("DO-220", ⟨"DO-220", "DO", "Plastic Surface-Mount Family", none, none⟩),
    ("DO-221", ⟨"DO-221", "DO", "Plastic Surface-Mount Family", none, none⟩),
    ("DO-222", ⟨"DO-222", "DO", "Plastic Surface-Mount Family", none, none⟩),
    ("DO-201-AA", ⟨"DO-201-AA", "DO", "Round Body Axial Lead", some ("axial_round_body"), some ([("len", value_t.num ⟨835, 2⟩), ("dia", value_t.num ⟨53, 1⟩), ("material", value_t.str "epoxy")])⟩),
    ("DO-202-AA", ⟨"DO-202-AA", "DO", "Round Body Axial Lead", none, none⟩) ]

/-- Chunk 2 of the explicit literal form of the seeded outlines table. -/
def OUTLINES_lit_2 : dict_t outline_t :=
  [ ("DO-204-AA", ⟨"DO-204-AA", "DO", "Round Body Axial Lead", none, none⟩),
    ("DO-204-AC", ⟨"DO-204-AC", "DO", "Round Body Axial Lead", some ("axial_round_body"), some ([("len", value_t.num ⟨70, 1⟩), ("dia", value_t.num ⟨36, 1⟩), ("material", value_t.str "epoxy")])⟩),
    ("DO-204-AF", ⟨"DO-204-AF", "DO", "Round Body Axial Lead", some ("axial_round_body"), some ([("len", value_t.num ⟨95, 1⟩), ("dia", value_t.num ⟨53, 1⟩), ("material", value_t.str "epoxy")])⟩),
    ("DO-204-AG", ⟨"DO-204-AG", "DO", "Round Body Axial Lead", none, none⟩),
    ("DO-204-AH", ⟨"DO-204-AH", "DO", "Round Body Axial Lead", some ("axial_round_body"), some ([("len", value_t.num ⟨39, 1⟩), ("dia", value_t.num ⟨17, 1⟩), ("material", value_t.str "glass")])⟩),
    ("DO-204-AL", ⟨"DO-204-AL", "DO", "Round Body Axial Lead", some ("axial_round_body"), some ([("len", value_t.num ⟨47, 1⟩), ("dia", value_t.num ⟨27, 1⟩), ("material", value_t.str "epoxy")])⟩),
    ("DO-201", ⟨"DO-201", "DO", "Round Body Axial Type", none, none⟩),
    ("DO-208", ⟨"DO-208", "DO", "Single-End Press-Fit", none, none⟩),
    ("DO-209", ⟨"DO-209", "DO", "Single-End Press-Fit", none, none⟩),
    ("DO-203", ⟨"DO-203", "DO", "Stud-Hex Base", none, none⟩),
    ("DO-205", ⟨"DO-205", "DO", "Stud-Hex Base", none, none⟩),
    ("DO-203-AB", ⟨"DO-203-AB", "DO", "Terminal Stud Axial Lead", none, none⟩),
    ("TO-9", ⟨"TO-9", "TO", "Axial Leads", none, none⟩),
    ("TO-42", ⟨"TO-42", "TO", "Axial Leads", none, none⟩),
    ("TO-72", ⟨"TO-72", "TO", "Axial Leads", none, none⟩) ]

/-- Chunk 3 of the explicit literal form of the seeded outlines table. -/
def OUTLINES_lit_3 : dict_t outline_t :=
  [ ("TO-73", ⟨"TO-73", "TO", "Axial Leads", none, none⟩),
    ("TO-74", ⟨"TO-74", "TO", "Axial Leads", none, none⟩),
    ("TO-75", ⟨"TO-75", "TO", "Axial Leads", none, none⟩),
    ("TO-76", ⟨"TO-76", "TO", "Axial Leads", none, none⟩),
    ("TO-77", ⟨"TO-77", "TO", "Axial Leads", none, none⟩),
    ("TO-78", ⟨"TO-78", "TO", "Axial Leads", none, none⟩),
    ("TO-79", ⟨"TO-79", "TO", "Axial Leads", none, none⟩),
    ("TO-80", ⟨"TO-80", "TO", "Axial Leads", none, none⟩),
    ("TO-96", ⟨"TO-96", "TO", "Axial Leads", none, none⟩),
    ("TO-97", ⟨"TO-97", "TO", "Axial Leads", none, none⟩),
    ("TO-99", ⟨"TO-99", "TO", "Axial Leads", none, none⟩),
    ("TO-100", ⟨"TO-100", "TO", "Axial Leads", none, none⟩),
    ("TO-101", ⟨"TO-101", "TO", "Axial Leads", none, none⟩),
    ("TO-205-AA", ⟨"TO-205-AA", "TO", "Axial Leads", none, none⟩),
    ("TO-205-AB", ⟨"TO-205-AB", "TO", "Axial Leads", none, none⟩) ]

/-- Chunk 4 of the explicit literal form of the seeded outlines table. -/
def OUTLINES_lit_4 : dict_t outline_t :=
  [ ("TO-206-AA", ⟨"TO-206-AA", "TO", "Axial Leads", some ("to206_package"), some ([("pin_count", value_t.num ⟨3, 0⟩), ("pin_diameter_mm", value_t.num ⟨10, 1⟩), ("pin_connected_to_body", value_t.num ⟨3, 0⟩)])⟩),
    ("TO-205-AC", ⟨"TO-205-AC", "TO", "Axial Leads", none, none⟩),
    ("TO-205-AD", ⟨"TO-205-AD", "TO", "Axial Leads", some ("to205_package"), some ([("pin_count", value_t.num ⟨3, 0⟩), ("pin_diameter_mm", value_t.num ⟨10, 1⟩), ("pin_connected_to_body", value_t.num ⟨3, 0⟩)])⟩),
    ("TO-206-AB", ⟨"TO-206-AB", "TO", "Axial Leads", none, none⟩),
    ("TO-233-AA", ⟨"TO-233-AA", "TO", "Axial Leads", none, none⟩),
    ("TO-276", ⟨"TO-276", "TO", "Ceramic No Lead", none, none⟩),
    ("TO-215", ⟨"TO-215", "TO", "Coaxial Type", none, none⟩),
    ("TO-200", ⟨"TO-200", "TO", "Disc Type Family", none, none⟩),
    ("TO-37", ⟨"TO-37", "TO", "Diamond Base", none, none⟩),
    ("TO-66", ⟨"TO-66", "TO", "Diamond Base", none, none⟩),
    ("TO-204-AA", ⟨"TO-204-AA", "TO", "Diamond Base", some ("to204_diamond"), some ([("pin_count", value_t.num ⟨2, 0⟩), ("pin_arc_start_deg", value_t.num ⟨650, 1⟩), ("pin_arc_stop_deg", value_t.num ⟨-650, 1⟩), ("pin_diameter_mm", value_t.num ⟨10, 1⟩), ("is_body_pin", value_t.boolean true)])⟩),
    ("TO-204-AB", ⟨"TO-204-AB", "TO", "Diamond Base", none, none⟩),
    ("TO-213-AB", ⟨"TO-213-AB", "TO", "Diamond Base", none, none⟩),
    ("TO-213-AC", ⟨"TO-213-AC", "TO", "Diamond Base", none, none⟩),
    ("TO-87", ⟨"TO-87", "TO", "Double-Ended Flatpack", none, none⟩) ]

/-- Chunk 5 of the explicit literal form of the seeded outlines table. -/
def OUTLINES_lit_5 : dict_t outline_t :=
  [ ("TO-88", ⟨"TO-88", "TO", "Double-Ended Flatpack", none, none⟩),
    ("TO-89", ⟨"TO-89", "TO", "Double-Ended Flatpack", none, none⟩),
    ("TO-90", ⟨"TO-90", "TO", "Double-Ended Flatpack", none, none⟩),
    ("TO-91", ⟨"TO-91", "TO", "Double-Ended Flatpack", none, none⟩),
    ("TO-95", ⟨"TO-95", "TO", "Double-Ended Flatpack", none, none⟩),
    ("TO-250", ⟨"TO-250", "TO", "Dual-in-Package", none, none⟩),
    ("TO-204", ⟨"TO-204", "TO", "Flange-Mounted Header Family", none, none⟩),
    ("TO-213", ⟨"TO-213", "TO", "Flange-Mounted Header Family", none, none⟩),
    ("TO-218", ⟨"TO-218", "TO", "Flange-Mounted Header Family", none, none⟩),
    ("TO-219", ⟨"TO-219", "TO", "Flange-Mounted Header Family", none, none⟩),
    ("TO-220", ⟨"TO-220", "TO", "Flange-Mounted Header Family", none, none⟩),
    ("TO-238", ⟨"TO-238", "TO", "Flange-Mounted Header Family", none, none⟩),
    ("TO-257", ⟨"TO-257", "TO", "Flange-Mounted Header Family", none, none⟩),
    ("TO-258", ⟨"TO-258", "TO", "Flange-Mounted Header Family", none, none⟩),
    ("TO-259", ⟨"TO-259", "TO", "Flange-Mounted Header Family", none, none⟩) ]

/-- Chunk 6 of the explicit literal form of the seeded outlines table. -/
def OUTLINES_lit_6 : dict_t outline_t :=
  [ ("TO-262", ⟨"TO-262", "TO", "Flange-Mounted Header Family", none, none⟩),
    ("TO-264", ⟨"TO-264", "TO", "Flange-Mounted Header Family", some ("to264_body"), some ([("body_mm", value_t.num ⟨200, 1⟩), ("height_mm", value_t.num ⟨260, 1⟩), ("lead_mm", value_t.num ⟨200, 1⟩), ("hole_d_mm", value_t.num ⟨381, 2⟩), ("scallop_d_mm", value_t.num ⟨635, 2⟩), ("scallop_y_mm", value_t.num ⟨60, 1⟩), ("pin_count", value_t.num ⟨3, 0⟩), ("pin_pitch_mm", value_t.num ⟨575, 2⟩)])⟩),
    ("TO-267", ⟨"TO-267", "TO", "Flange-Mounted Header Family", none, none⟩),
    ("TO-280", ⟨"TO-280", "TO", "Flange-Mounted Header Family", none, none⟩),
    ("TO-281", ⟨"TO-281", "TO", "Flange-Mounted Header Family", none, none⟩),
    ("TO-273", ⟨"TO-273", "TO", "Flange-Mounted Package", none, none⟩),
    ("TO-247", ⟨"TO-247", "TO", "Flange-Mounted Peripheral Terminal", some ("to247_tab"), some ([("pin_count", value_t.num ⟨3, 0⟩), ("body_w", value_t.num ⟨200, 1⟩), ("body_h", value_t.num ⟨156, 1⟩), ("lead_len", value_t.num ⟨200, 1⟩)])⟩),
    ("TO-254", ⟨"TO-254", "TO", "Flange-Mounted Peripheral Terminal", none, none⟩),
    ("TO-244", ⟨"TO-244", "TO", "Flange-Mounted Rectangular Base", none, none⟩),
    ("TO-92", ⟨"TO-92", "TO", "Flat Index Axial Leaded", some ("to92_moulded"), some ([("pin_count", value_t.num ⟨3, 0⟩), ("body_w", value_t.num ⟨48, 1⟩), ("body_h", value_t.num ⟨48, 1⟩), ("lead_len", value_t.num ⟨110, 1⟩), ("lead_pitch", value_t.num ⟨127, 2⟩)])⟩),
    ("TO-225-AA", ⟨"TO-225-AA", "TO", "Flat Leads", some ("to225_tab"), some ([("pin_count", value_t.num ⟨3, 0⟩), ("tab_is_pin", value_t.boolean true)])⟩),
    ("TO-232-AA", ⟨"TO-232-AA", "TO", "Flat Leads", none, none⟩),
    ("TO-256", ⟨"TO-256", "TO", "Flat Mounted Transistor", none, none⟩),
    ("TO-282", ⟨"TO-282", "TO", "Flat Mounted Transistor", none, none⟩),
    ("TO-209", ⟨"TO-209", "TO", "Flexible Terminals", none, none⟩) ]

/-- Chunk 7 of the explicit literal form of the seeded outlines table. -/
def OUTLINES_lit_7 : dict_t outline_t :=
  [ ("TO-205", ⟨"TO-205", "TO", "Header Family", none, none⟩),
    ("TO-206", ⟨"TO-206", "TO", "Header Family", none, none⟩),
    ("TO-236", ⟨"TO-236", "TO", "Header Family", none, none⟩),
    ("TO-237", ⟨"TO-237", "TO", "Header Family", none, none⟩),
    ("TO-243", ⟨"TO-243", "TO", "Header Family", none, none⟩),
    ("TO-251", ⟨"TO-251", "TO", "Header Family", none, none⟩),
    ("TO-252", ⟨"TO-252", "TO", "Header Family", none, none⟩),
    ("TO-260", ⟨"TO-260", "TO", "Header Family", none, none⟩),
    ("TO-263", ⟨"TO-263", "TO", "Header Family", none, none⟩),
    ("TO-268", ⟨"TO-268", "TO", "Header Family", none, none⟩),
    ("TO-279", ⟨"TO-279", "TO", "Header Family", none, none⟩),
    ("TO-84", ⟨"TO-84", "TO", "Multiple-Ended Flatpack", none, none⟩),
    ("TO-85", ⟨"TO-85", "TO", "Multiple-Ended Flatpack", none, none⟩),
    ("TO-86", ⟨"TO-86", "TO", "Multiple-Ended Flatpack", none, none⟩),
    ("TO-266", ⟨"TO-266", "TO", "Opto Family Insertion Mount", none, none⟩) ]

/-- Chunk 8 of the explicit literal form of the seeded outlines table. -/
def OUTLINES_lit_8 : dict_t outline_t :=
  [ ("TO-274", ⟨"TO-274", "TO", "Plastic Clip Mounted Package", none, none⟩),
    ("TO-265", ⟨"TO-265", "TO", "Power Package", none, none⟩),
    ("TO-270", ⟨"TO-270", "TO", "Power Package", none, none⟩),
    ("TO-272", ⟨"TO-272", "TO", "Power Package", none, none⟩),
    ("TO-275", ⟨"TO-275", "TO", "Power Package", none, none⟩),
    ("TO-271", ⟨"TO-271", "TO", "Quad Flack Pack Surface Mount", none, none⟩),
    ("TO-269", ⟨"TO-269", "TO", "Small Outline", none, none⟩),
    ("TO-253", ⟨"TO-253", "TO", "Small Outline Transistor (SOT)", none, none⟩),
    ("TO-261", ⟨"TO-261", "TO", "Small Outline Transistor (SOT)", none, none⟩),
    ("TO-208", ⟨"TO-208", "TO", "Solid Terminals", none, none⟩),
    ("TO-94", ⟨"TO-94", "TO", "Stud-Mount Flex Lead", none, none⟩),
    ("TO-216", ⟨"TO-216", "TO", "Stud-Mounted Stripline", none, none⟩),
    ("TO-202", ⟨"TO-202", "TO", "Tab-Mounted Peripheral Leads", none, none⟩),
    ("TO-240", ⟨"TO-240", "TO", "Terminal Strip Power Module", none, none⟩),
    ("R-6", ⟨"R-6", "GEN", "Axial Diode", some ("axial_round_body"), some ([("len", value_t.num ⟨88, 1⟩), ("dia", value_t.num ⟨88, 1⟩), ("material", value_t.str "epoxy")])⟩) ]

/-- Chunk 9 of the explicit literal form of the seeded outlines table. -/
def OUTLINES_lit_9 : dict_t outline_t :=
  [ ("T-18", ⟨"T-18", "GEN", "Axial Diode", some ("axial_round_body"), some ([("len", value_t.num ⟨88, 1⟩), ("dia", value_t.num ⟨35, 1⟩), ("material", value_t.str "epoxy")])⟩),
    ("DO-201-AD", ⟨"DO-201-AD", "DO", "Round Body Axial Type", some ("axial_round_body"), some ([("len", value_t.num ⟨90, 1⟩), ("dia", value_t.num ⟨51, 1⟩), ("material", value_t.str "epoxy")])⟩),
    ("TO-218-AA", ⟨"TO-218-AA", "TO", "Flat Leads", some ("to218_tab"), some ([("pin_count", value_t.num ⟨3, 0⟩), ("tab_is_pin", value_t.boolean true)])⟩),
    ("TO-220-AB", ⟨"TO-220-AB", "TO", "Flange-Mounted Header Family", some ("to220_tab"), some ([("pin_count", value_t.num ⟨3, 0⟩), ("tab_is_pin", value_t.boolean true), ("tab_finish", value_t.str "metallic")])⟩),
    ("TO-243-AA", ⟨"TO-243-AA", "TO", "Header Family", some ("to243_tab"), some ([("body_w", value_t.num ⟨45, 1⟩), ("body_h", value_t.num ⟨276, 2⟩)])⟩),
    ("DO-213-AB", ⟨"DO-213-AB", "DO", "Leadless Family", some ("melf"), some ([("body_length", value_t.num ⟨5, 0⟩), ("body_diameter", value_t.num ⟨24, 1⟩), ("pad_width", value_t.num ⟨55, 2⟩), ("material", value_t.str "glass")])⟩),
    ("DO-214-AC", ⟨"DO-214-AC", "DO", "Plastic Surface-Mount Family", some ("smd_2pad"), some ([("body_w", value_t.num ⟨43, 1⟩), ("body_h", value_t.num ⟨26, 1⟩), ("pad_w", value_t.num ⟨12, 1⟩), ("pad_h", value_t.num ⟨145, 2⟩)])⟩),
    ("DO-214-AA", ⟨"DO-214-AA", "DO", "Plastic Surface-Mount Family", some ("smd_2pad"), some ([("body_w", value_t.num ⟨432, 2⟩), ("body_h", value_t.num ⟨362, 2⟩), ("pad_w", value_t.num ⟨12, 1⟩), ("pad_h", value_t.num ⟨21, 1⟩)])⟩),
    ("DO-214-AB", ⟨"DO-214-AB", "DO", "Plastic Surface-Mount Family", some ("smd_2pad"), some ([("body_w", value_t.num ⟨686, 2⟩), ("body_h", value_t.num ⟨59, 1⟩), ("pad_w", value_t.num ⟨12, 1⟩), ("pad_h", value_t.num ⟨297, 2⟩)])⟩),
    ("SOT-23", ⟨"SOT-23", "TO", "Small Outline Transistor (SOT)", some ("smd_3lead"), some ([("body_w", value_t.num ⟨29, 1⟩), ("body_h", value_t.num ⟨13, 1⟩), ("pad2_w", value_t.num ⟨4, 1⟩), ("pad2_h", value_t.num ⟨6, 1⟩), ("pad2_pitch", value_t.num ⟨19, 1⟩), ("pad1_w", value_t.num ⟨4, 1⟩), ("pad1_h", value_t.num ⟨6, 1⟩), ("pin_count", value_t.num ⟨3, 0⟩)])⟩),
    ("SOT-323", ⟨"SOT-323", "EIAJ", "Small Outline Transistor (SOT)", some ("smd_3lead"), some ([("body_w", value_t.num ⟨22, 1⟩), ("body_h", value_t.num ⟨135, 2⟩), ("pad2_w", value_t.num ⟨4, 1⟩), ("pad2_h", value_t.num ⟨425, 3⟩), ("pad2_pitch", value_t.num ⟨13, 1⟩), ("pad1_w", value_t.num ⟨4, 1⟩), ("pad1_h", value_t.num ⟨525, 3⟩), ("pin_count", value_t.num ⟨3, 0⟩)])⟩),
    ("5MM ROUND T/H", ⟨"5MM ROUND T/H", "IEC", "Leaded LED", some ("led_tht_round"), some ([("body_d", value_t.num ⟨50, 1⟩), ("body_h", value_t.num ⟨86, 1⟩), ("lead_len", value_t.num ⟨170, 1⟩), ("lead_pitch", value_t.num ⟨254, 2⟩), ("lead_w", value_t.num ⟨6, 1⟩)])⟩) ]

/-- Explicit literal form of the seeded outlines table. -/
def OUTLINES_lit : dict_t outline_t :=
  OUTLINES_lit_1 ++ OUTLINES_lit_2 ++ OUTLINES_lit_3 ++ OUTLINES_lit_4 ++ OUTLINES_lit_5 ++ OUTLINES_lit_6 ++ OUTLINES_lit_7 ++ OUTLINES_lit_8 ++ OUTLINES_lit_9

/-- Chunk 1 of the explicit literal form of the seeded aliases table. -/
def ALIASES_lit_1 : dict_t String :=
  [ ("DO-27", "DO-201-AA"),
    ("DO-35", "DO-204-AH"),
    ("DO-41", "DO-204-AL"),
    ("DO-15", "DO-204-AC"),
    ("DO-29", "DO-204-AF"),
    ("DO-201", "DO-201-AD"),
    ("TO92", "TO-92"),
    ("TO-3", "TO-204-AA"),
    ("TO3", "TO-204-AA"),
    ("TO-205", "TO-205-AD"),
    ("TO205", "TO-205-AD"),
    ("TO-39", "TO-205-AD"),
    ("TO39", "TO-205-AD"),
    ("TO-206", "TO-206-AA"),
    ("TO206", "TO-206-AA"),
    ("TO-18", "TO-206-AA"),
    ("TO18", "TO-206-AA"),
    ("TO-218", "TO-218-AA"),
    ("TO-126", "TO-225-AA"),
    ("TO126", "TO-225-AA"),
    ("TO-220", "TO-220-AB"),
    ("TO220", "TO-220-AB"),
    ("TO243", "TO-243-AA"),
    ("SOT-89", "TO-243-AA"),
    ("SOT89", "TO-243-AA") ]

/-- Chunk 2 of the explicit literal form of the seeded aliases table. -/
def ALIASES_lit_2 : dict_t String :=
  [ ("TO247", "TO-247"),
    ("TO264", "TO-264"),
    ("TO-264AA", "TO-264"),
    ("TO-3P", "TO-264"),
    ("MELF", "DO-213-AB"),
    ("MMB", "DO-213-AB"),
    ("SOD-106", "DO-213-AB"),
    ("SMA", "DO-214-AC"),
    ("SMB", "DO-214-AA"),
    ("SMC", "DO-214-AB"),
    ("SOT23", "SOT-23"),
    ("SOT-23-3", "SOT-23"),
    ("SOT23-3", "SOT-23"),
    ("TO-236", "SOT-23"),
    ("TO-236AA", "SOT-23"),
    ("SOT-23F", "SOT-23"),
    ("SOT323", "SOT-323"),
    ("SOT-323-3", "SOT-323"),
    ("SOT323-3", "SOT-323"),
    ("SC-70", "SOT-323"),
    ("R6", "R-6"),
    ("T18", "T-18"),
    ("LED5MM", "5MM ROUND T/H"),
    ("5MMLED", "5MM ROUND T/H") ]

/-- Explicit literal form of the seeded aliases table. -/
def ALIASES_lit : dict_t String :=
  ALIASES_lit_1 ++ ALIASES_lit_2

/-- Chunk 1 of the explicit literal form of the seeded variants table. -/
def VARIANTS_lit_1 : dict_t variant_t :=
  [ ("TO-218-5", ⟨"TO-218-AA", "TO-218-5", [("pin_count", value_t.num ⟨5, 0⟩), ("tab_is_pin", value_t.boolean true)]⟩),
    ("TO-220-AA", ⟨"TO-220-AB", "TO-220-AA", [("pin_count", value_t.num ⟨3, 0⟩), ("tab_is_pin", value_t.boolean false), ("tab_finish", value_t.str "metallic")]⟩),
    ("TO-220-AC", ⟨"TO-220-AB", "TO-220-AC", [("pin_count", value_t.num ⟨2, 0⟩), ("tab_is_pin", value_t.boolean true), ("tab_finish", value_t.str "metallic")]⟩),
    ("TO-220-AB-5L", ⟨"TO-220-AB", "TO-220-AB-5L", [("pin_count", value_t.num ⟨5, 0⟩)]⟩),
    ("TO-220-5", ⟨"TO-220-AB", "TO-220-AB-5L", [("pin_count", value_t.num ⟨5, 0⟩)]⟩),
    ("TO220-5", ⟨"TO-220-AB", "TO-220-AB-5L", [("pin_count", value_t.num ⟨5, 0⟩)]⟩),
    ("TO-220-5L", ⟨"TO-220-AB", "TO-220-AB-5L", [("pin_count", value_t.num ⟨5, 0⟩)]⟩),
    ("TO-220-AB-6L", ⟨"TO-220-AB", "TO-220-AB-6L", [("pin_count", value_t.num ⟨6, 0⟩)]⟩),
    ("TO-220-6", ⟨"TO-220-AB", "TO-220-AB-6L", [("pin_count", value_t.num ⟨6, 0⟩)]⟩),
    ("TO220-6", ⟨"TO-220-AB", "TO-220-AB-6L", [("pin_count", value_t.num ⟨6, 0⟩)]⟩),
    ("TO-220-6L", ⟨"TO-220-AB", "TO-220-AB-6L", [("pin_count", value_t.num ⟨6, 0⟩)]⟩),
    ("TO-220-AB-7L", ⟨"TO-220-AB", "TO-220-AB-7L", [("pin_count", value_t.num ⟨7, 0⟩)]⟩),
    ("TO-220-7", ⟨"TO-220-AB", "TO-220-AB-7L", [("pin_count", value_t.num ⟨7, 0⟩)]⟩),
    ("TO220-7", ⟨"TO-220-AB", "TO-220-AB-7L", [("pin_count", value_t.num ⟨7, 0⟩)]⟩),
    ("TO-220-7L", ⟨"TO-220-AB", "TO-220-AB-7L", [("pin_count", value_t.num ⟨7, 0⟩)]⟩),
    ("TO-220-F", ⟨"TO-220-AB", "TO-220-F", [("pin_count", value_t.num ⟨3, 0⟩), ("tab_is_pin", value_t.boolean true), ("tab_finish", value_t.str "insulated")]⟩),
    ("TO220F", ⟨"TO-220-AB", "TO-220-F", [("pin_count", value_t.num ⟨3, 0⟩), ("tab_is_pin", value_t.boolean true), ("tab_finish", value_t.str "insulated")]⟩) ]

/-- Chunk 2 of the explicit literal form of the seeded variants table. -/
def VARIANTS_lit_2 : dict_t variant_t :=
  [ ("TO-220F", ⟨"TO-220-AB", "TO-220-F", [("pin_count", value_t.num ⟨3, 0⟩), ("tab_is_pin", value_t.boolean true), ("tab_finish", value_t.str "insulated")]⟩),
    ("TO-243-AB", ⟨"TO-243-AA", "TO-243-AB", [("pin_count", value_t.num ⟨3, 0⟩)]⟩),
    ("TO243AB", ⟨"TO-243-AA", "TO-243-AB", [("pin_count", value_t.num ⟨3, 0⟩)]⟩),
    ("SOT-89-2", ⟨"TO-243-AA", "TO-243-AB", [("pin_count", value_t.num ⟨3, 0⟩)]⟩),
    ("SOT89-2", ⟨"TO-243-AA", "TO-243-AB", [("pin_count", value_t.num ⟨3, 0⟩)]⟩),
    ("TO-243-6", ⟨"TO-243-AA", "TO-243-6", [("pin_count", value_t.num ⟨6, 0⟩)]⟩),
    ("TO243-6", ⟨"TO-243-AA", "TO-243-6", [("pin_count", value_t.num ⟨6, 0⟩)]⟩),
    ("SOT-89-6", ⟨"TO-243-AA", "TO-243-6", [("pin_count", value_t.num ⟨6, 0⟩)]⟩),
    ("SOT89-6", ⟨"TO-243-AA", "TO-243-6", [("pin_count", value_t.num ⟨6, 0⟩)]⟩),
    ("TO-247-4", ⟨"TO-247", "TO-247-4", [("pin_count", value_t.num ⟨4, 0⟩)]⟩),
    ("TO-264-2", ⟨"TO-264", "TO-264-2", [("pin_count", value_t.num ⟨2, 0⟩)]⟩),
    ("TO264-2", ⟨"TO-264", "TO-264-2", [("pin_count", value_t.num ⟨2, 0⟩)]⟩),
    ("TO-264-2L", ⟨"TO-264", "TO-264-2", [("pin_count", value_t.num ⟨2, 0⟩)]⟩),
    ("TO-264-5", ⟨"TO-264", "TO-264-5", [("pin_count", value_t.num ⟨5, 0⟩), ("pin_pitch_mm", value_t.num ⟨381, 2⟩)]⟩),
    ("TO264-5", ⟨"TO-264", "TO-264-5", [("pin_count", value_t.num ⟨5, 0⟩), ("pin_pitch_mm", value_t.num ⟨381, 2⟩)]⟩),
    ("TO-264-5L", ⟨"TO-264", "TO-264-5", [("pin_count", value_t.num ⟨5, 0⟩), ("pin_pitch_mm", value_t.num ⟨381, 2⟩)]⟩),
    ("SOT-23-4", ⟨"SOT-23", "SOT-23-4", [("pin_count", value_t.num ⟨4, 0⟩)]⟩) ]

/-- Chunk 3 of the explicit literal form of the seeded variants table. -/
def VARIANTS_lit_3 : dict_t variant_t :=
  [ ("SOT23-4", ⟨"SOT-23", "SOT-23-4", [("pin_count", value_t.num ⟨4, 0⟩)]⟩),
    ("SOT-23-4L", ⟨"SOT-23", "SOT-23-4", [("pin_count", value_t.num ⟨4, 0⟩)]⟩),
    ("SOT23-4L", ⟨"SOT-23", "SOT-23-4", [("pin_count", value_t.num ⟨4, 0⟩)]⟩),
    ("SOT-23-5", ⟨"SOT-23", "SOT-23-5", [("pin_count", value_t.num ⟨5, 0⟩)]⟩),
    ("SOT23-5", ⟨"SOT-23", "SOT-23-5", [("pin_count", value_t.num ⟨5, 0⟩)]⟩),
    ("SOT-23-5L", ⟨"SOT-23", "SOT-23-5", [("pin_count", value_t.num ⟨5, 0⟩)]⟩),
    ("SOT23-5L", ⟨"SOT-23", "SOT-23-5", [("pin_count", value_t.num ⟨5, 0⟩)]⟩),
    ("SOT-23-6", ⟨"SOT-23", "SOT-23-6", [("pin_count", value_t.num ⟨6, 0⟩)]⟩),
    ("SOT23-6", ⟨"SOT-23", "SOT-23-6", [("pin_count", value_t.num ⟨6, 0⟩)]⟩),
    ("SOT-23-6L", ⟨"SOT-23", "SOT-23-6", [("pin_count", value_t.num ⟨6, 0⟩)]⟩),
    ("SOT23-6L", ⟨"SOT-23", "SOT-23-6", [("pin_count", value_t.num ⟨6, 0⟩)]⟩),
    ("SOT-23-8", ⟨"SOT-23", "SOT-23-8", [("pin_count", value_t.num ⟨8, 0⟩)]⟩),
    ("SOT23-8", ⟨"SOT-23", "SOT-23-8", [("pin_count", value_t.num ⟨8, 0⟩)]⟩),
    ("SOT-23-8L", ⟨"SOT-23", "SOT-23-8", [("pin_count", value_t.num ⟨8, 0⟩)]⟩),
    ("SOT23-8L", ⟨"SOT-23", "SOT-23-8", [("pin_count", value_t.num ⟨8, 0⟩)]⟩) ]

/-- Explicit literal form of the seeded variants table. -/
def VARIANTS_lit : dict_t variant_t :=
  VARIANTS_lit_1 ++ VARIANTS_lit_2 ++ VARIANTS_lit_3


/-- The three literal tables bundled as a registry state. -/
def db_lit : db_t := ⟨OUTLINES_lit, ALIASES_lit, VARIANTS_lit⟩

/-! Geometry primitives from `src/core/geometry.py` and the numeric
helpers from `src/packages/tht_helpers.py`, over an arbitrary linear
ordered field standing for Python floats. -/

/-- Embedding of `geometry.py` `simple_rect`. -/
structure simple_rect (α : Type) where
  left : α
  bottom : α
  width : α
  height : α
  deriving DecidableEq, Repr

/-- Embedding of `scale_physical`: apply the scale factor, then shrink
both dimensions uniformly so the result fits inside the rectangle,
never upscaling. -/
def scale_physical {α : Type} [LinearOrderedField α] (rect : simple_rect α)
    (mm_w mm_h scale_factor : α) : α × α :=
  let k := scale_factor
  let w := mm_w * k
  let h := mm_h * k
  let max_w := rect.width
  let max_h := rect.height
  let f : α := 1
  let f := if w > max_w then min f (max_w / w) else f
  let f := if h > max_h then min f (max_h / h) else f
  if f < 1 then (w * f, h * f) else (w, h)

/-- Embedding of `tht_helpers.py` `clamp_float`. -/
def clamp_float {α : Type} [LinearOrder α] (value minimum maximum : α) : α :=
  if value < minimum then minimum
  else if value > maximum then maximum
  else value

/-- Embedding of `tht_helpers.py` `clamp_int`. -/
def clamp_int (value minimum maximum : ℤ) : ℤ :=
  if value < minimum then minimum
  else if value > maximum then maximum
  else value

/-- Embedding of `parse_pin_config`: split a pin-config string such as
"g d s" or "g,d,s" into its non-empty tokens. -/
def parse_pin_config (pc : String) : List String :=
  ((String.mk (pc.data.map (fun c => if c = ',' then ' ' else c))).data.splitOnP
    Char.isWhitespace).map String.mk |>.filter (fun p => p ≠ "")

/-- Embedding of `default_numeric_labels`: the labels "1", "2", .... -/
def default_numeric_labels (n : ℤ) : List String :=
  (List.range n.toNat).map (fun i => toString (i + 1))

/-- Embedding of `linspace_angles_deg`: evenly spaced angles between the
two bounds, inclusive, with the count clamped into 1..32. -/
def linspace_angles_deg {α : Type} [LinearOrderedField α]
    (count : ℤ) (start_deg stop_deg : α) : List α :=
  let count := clamp_int count 1 32
  if count = 1 then [(start_deg + stop_deg) * (1/2)]
  else
    let span := stop_deg - start_deg
    let step := span / ((count : α) - 1)
    (List.range count.toNat).map (fun (i : ℕ) => start_deg + step * (i : α))

/-! Repository-layout and call-signature facts about the family dispatch
table in `src/packages/registry.py`, recorded from the source tree. -/

/-- The Python modules present in the `src/packages/` directory of the
repository (file names without the `.py` suffix). -/
def packages_module_files : List String :=
  ["api", "axial_diode", "axial_resistor", "capacitor_disc", "led_tht",
   "model", "outline_db", "registry", "resolve", "smd2", "smd3", "smd4",
   "tht_helpers", "to204", "to205", "to218", "to220", "to225", "to243",
   "to247", "to264", "to92"]

/-- The module name that `registry.py` line 11 imports `draw_axial_package`
from (`from src.packages.diode_axial import draw_axial_package`). -/
def registry_axial_import_module : String := "diode_axial"

/-- The parameters accepted by `draw_axial_package` as defined in
`src/packages/axial_diode.py` (positional and keyword). -/
def draw_axial_package_parameters : List String :=
  ["canvas", "rect", "info", "material", "show_labels"]

/-- The keyword arguments that `_draw_axial_round_body` and `_draw_melf`
in `registry.py` pass to `draw_axial_package` beyond the positional
arguments `canvas`, `rect`, `info`/`params`, `material`. -/
def registry_axial_call_keyword_arguments : List String :=
  ["show_labels", "show_polarity_band"]

/-! Canvas operations.  Each ReportLab canvas method call performed by a
drawer is recorded as one element of a list of operations; a drawer that
performs no drawing returns an empty list, and a drawer that would raise
a Python exception returns `none`. -/

/-- Path segment operations produced through `canvas.beginPath()`. -/
inductive path_op_t (α : Type) where
  | moveTo (x y : α)
  | lineTo (x y : α)
  | arcTo (x1 y1 x2 y2 start_deg extent_deg : α)
  | close
  deriving DecidableEq, Repr

/-- ReportLab canvas operations performed by the package drawers. -/
inductive canvas_op_t (α : Type) where
  | set_stroke_colour (name : String)
  | set_fill_colour (name : String)
  | set_stroke_colour_rgb (r g b : α)
  | set_fill_colour_rgb (r g b : α)
  | set_line_width (w : α)
  | set_font (name : String) (size : α)
  | line (x1 y1 x2 y2 : α)
  | rect (x y w h : α) (fill stroke : Bool)
  | save_state
  | restore_state
  | clip_rect_path (x y w h : α)
  | linear_gradient (x1 y1 x2 y2 : α) (c1 c2 : α × α × α)
  | draw_string (x y : α) (text : String)
  | draw_right_string (x y : α) (text : String)
  | draw_centred_string (x y : α) (text : String)
  | circle (x y r : α) (stroke fill : Bool)
  | draw_path (ops : List (path_op_t α)) (stroke fill : Bool)
  deriving DecidableEq, Repr

/-- Python `float(v)` on a parameter value: numbers and booleans convert,
strings and lists are treated as non-convertible (the registry stores
numeric parameters as numbers). -/
def py_float (α : Type) [DivisionRing α] : value_t → Option α
  | .num q => some (pyfloat_val α q)
  | .boolean b => some (if b then 1 else 0)
  | .str _ => none
  | .strList _ => none

/-- Python `str(v)` on a parameter value.  Only its comparison against
the lowercase token "smd" matters to the drawers; non-string values
render to markers that are never equal to "smd". -/
def py_str_of : value_t → String
  | .str s => s
  | .num q => "float:" ++ toString q.mant ++ "e-" ++ toString q.exp10
  | .boolean b => if b then "True" else "False"
  | .strList xs => "list:" ++ toString xs.length

/-- Python `d.get(k, default)` on a parameter dictionary. -/
def dict_get {β : Type} (d : dict_t β) (k : String) (dflt : β) : β :=
  (dict_lookup d k).getD dflt


/-! Embedding of `src/packages/axial_diode.py`.  `string_width` stands for
`canvas.stringWidth(text, font, size)`. -/

/-- The `AXIAL_LEAD_FRACTION` constant of `axial_diode.py`. -/
def AXIAL_LEAD_FRACTION (α : Type) [DivisionRing α] : α := 18/100

/-- The `SMD_CAP_OVERLAP_FRACTION` constant of `axial_diode.py`. -/
def SMD_CAP_OVERLAP_FRACTION (α : Type) [DivisionRing α] : α := 2/100

/-- Embedding of `_draw_axial_labels_tht`. -/
def draw_axial_labels_tht {α : Type} [LinearOrderedField α]
    (rect : simple_rect α) (body_x body_w cy : α)
    (string_width : String → String → α → α) : List (canvas_op_t α) :=
  let fs := rect.height * (25/100)
  let a_x := body_x - (rect.width * AXIAL_LEAD_FRACTION α * (1/2))
  let k_x := body_x + body_w + (rect.width * AXIAL_LEAD_FRACTION α * (1/2))
  let label_y := cy + fs * (35/100)
  let a_w := string_width "A" "Helvetica" fs
  let k_w := string_width "K" "Helvetica" fs
  [.set_fill_colour "black", .set_font "Helvetica" fs,
   .draw_string (a_x - a_w * (1/2)) label_y "A",
   .draw_string (k_x - k_w * (1/2)) label_y "K"]

/-- Embedding of `_draw_axial_labels_smd`. -/
def draw_axial_labels_smd {α : Type} [LinearOrderedField α]
    (rect : simple_rect α)
    (left_pad_outer_x right_pad_outer_x pad_y pad_h pad_w : α)
    (string_width : String → String → α → α) : List (canvas_op_t α) :=
  let fs := rect.height * (25/100)
  let pad_centre_y := pad_y + (pad_h * (1/2))
  let text_y := pad_centre_y - (fs * (35/100))
  let a_w := string_width "A" "Helvetica" fs
  let gap := pad_w * (60/100)
  [.set_fill_colour "black", .set_font "Helvetica" fs,
   .draw_string (left_pad_outer_x - gap - a_w) text_y "A",
   .draw_string (right_pad_outer_x + gap) text_y "K"]

/-- Embedding of `draw_axial_package`: draw a cylindrical axial package in
THT or MELF-style SMD form, as the ordered list of canvas operations.
Returns `none` when the Python code would raise (a non-numeric value
reaching `float(...)`), and `some []` when it draws nothing. -/
def draw_axial_package {α : Type} [LinearOrderedField α]
    (rect : simple_rect α) (info : dict_t value_t) (material : String)
    (show_labels : Bool) (string_width : String → String → α → α) :
    Option (List (canvas_op_t α)) :=
  let mount_style :=
    py_lower (py_strip (py_str_of (dict_get info "mount" (.str "tht"))))
  match py_float α (dict_get info "body_length" (dict_get info "len" (.num 0))) with
  | none => none
  | some body_length_mm =>
  match py_float α (dict_get info "body_diameter" (dict_get info "dia" (.num 0))) with
  | none => none
  | some body_diameter_mm =>
  if body_length_mm ≤ 0 ∨ body_diameter_mm ≤ 0 then some []
  else
    let pad_end_v :=
      (dict_lookup info "pad_end_length").orElse
        (fun _ => dict_lookup info "pad_width")
    let pad_height_v := dict_lookup info "pad_height"
    let cx := rect.left + rect.width * (1/2)
    let cy := rect.bottom + rect.height * (1/2)
    let bwh := scale_physical rect body_length_mm body_diameter_mm 2
    let body_w := bwh.1
    let body_h := bwh.2
    let body_x := cx - body_w * (1/2)
    let body_y := cy - body_h * (1/2)
    let material_norm := py_lower (py_strip material)
    let cols : (α × α × α) × (α × α × α) × (α × α × α) × (α × α × α) :=
      if material_norm = "glass" then
        ((90/100, 40/100, 10/100), (78/100, 32/100, 6/100),
         (40/100, 16/100, 3/100), (0, 0, 0))
      else if material_norm = "metallic" then
        ((90/100, 90/100, 92/100), (70/100, 70/100, 72/100),
         (35/100, 35/100, 38/100), (0, 0, 0))
      else if material_norm = "blue" then
        ((20/100, 65/100, 1), (0, 50/100, 78/100),
         (0, 25/100, 45/100), (0, 0, 0))
      else
        ((45/100, 45/100, 45/100), (30/100, 30/100, 30/100),
         (6/100, 6/100, 6/100), (75/100, 75/100, 75/100))
    let top_col := cols.1
    let mid_col := cols.2.1
    let bot_col := cols.2.2.1
    let band_col := cols.2.2.2
    let smd := mount_style = "smd"
    let geom : Option (α × α × α × α × α × α) :=
      if smd then
        match
          (match pad_end_v with
           | none => some (body_diameter_mm * (55/100))
           | some v => py_float α v),
          (match pad_height_v with
           | none => some (body_diameter_mm * (130/100))
           | some v => py_float α v) with
        | some pe0, some ph0 =>
          let pe := if pe0 < 0 then 0 else pe0
          let scale_x := body_w / body_length_mm
          let scale_y := body_h / body_diameter_mm
          let pad_w0 := pe * scale_x
          let pad_h0 := ph0 * scale_y
          let pad_w := if pad_w0 > body_w * (1/2) then body_w * (1/2) else pad_w0
          let pad_h := if pad_h0 < body_h then body_h else pad_h0
          let cap_overlap := max (body_w * SMD_CAP_OVERLAP_FRACTION α) (4/10)
          let pad_y := cy - pad_h * (1/2)
          let left_pad_x := body_x - cap_overlap
          let right_pad_x := body_x + body_w - pad_w
          let right_pad_w := pad_w + cap_overlap
          some (pad_w, pad_h, cap_overlap, pad_y, left_pad_x,
                right_pad_x + right_pad_w)
        | _, _ => none
      else some (0, 0, 0, 0, 0, 0)
    match geom with
    | none => none
    | some (pad_w, pad_h, cap_overlap, pad_y, left_pad_outer_x,
            right_pad_outer_x) =>
      let lead_ops : List (canvas_op_t α) :=
        if smd then []
        else
          let lead_len := rect.width * AXIAL_LEAD_FRACTION α
          let left_lead_start := cx - body_w * (1/2) - lead_len
          let left_lead_end := cx - body_w * (1/2)
          let right_lead_start := cx + body_w * (1/2)
          let right_lead_end := cx + body_w * (1/2) + lead_len
          [.set_stroke_colour "black", .set_line_width 1,
           .line left_lead_start cy left_lead_end cy,
           .line right_lead_start cy right_lead_end cy]
      let grad_ops : List (canvas_op_t α) :=
        [.save_state,
         .clip_rect_path body_x (body_y + body_h * (1/2)) body_w
           (body_h * (1/2)),
         .linear_gradient (body_x + body_w * (1/2)) (body_y + body_h)
           (body_x + body_w * (1/2)) (body_y + body_h * (1/2))
           top_col mid_col,
         .restore_state,
         .save_state,
         .clip_rect_path body_x body_y body_w (body_h * (1/2)),
         .linear_gradient (body_x + body_w * (1/2))
           (body_y + body_h * (1/2)) (body_x + body_w * (1/2)) body_y
           mid_col bot_col,
         .restore_state]
      let band_w := body_w * (16/100)
      let band_x :=
        if smd ∧ pad_w > 0 then
          let bx := body_x + body_w - pad_w - band_w
          if bx < body_x then body_x else bx
        else body_x + body_w - band_w
      let band_ops : List (canvas_op_t α) :=
        [.set_fill_colour_rgb band_col.1 band_col.2.1 band_col.2.2,
         .rect band_x body_y band_w body_h true false]
      let pad_ops : List (canvas_op_t α) :=
        if smd ∧ pad_w > 0 then
          let left_pad_x := body_x - cap_overlap
          let left_pad_w := pad_w + cap_overlap
          let right_pad_x := body_x + body_w - pad_w
          let right_pad_w := pad_w + cap_overlap
          [.set_fill_colour_rgb (80/100) (80/100) (82/100),
           .rect left_pad_x pad_y left_pad_w pad_h true false,
           .rect right_pad_x pad_y right_pad_w pad_h true false]
        else []
      let label_ops : List (canvas_op_t α) :=
        if show_labels then
          if smd ∧ pad_w > 0 then
            draw_axial_labels_smd rect left_pad_outer_x right_pad_outer_x
              pad_y pad_h pad_w string_width
          else
            draw_axial_labels_tht rect body_x body_w cy string_width
        else []
      some (lead_ops ++ grad_ops ++ band_ops ++ pad_ops ++ label_ops ++
            [.set_fill_colour "black", .set_stroke_colour "black"])



/-! Embedding of `src/packages/to204.py`.  The transcendental functions
used by the geometry (`sqrt`, `acos`, `sin`, `cos`, `tan`, `atan2`, `pi`)
are supplied as an abstract operation record; every structural property
below holds for every choice of these operations. -/

/-- Abstract record of the `math` module functions used by `to204.py`. -/
structure real_ops_t (α : Type) where
  sqrt : α → α
  acos : α → α
  sin : α → α
  cos : α → α
  tan : α → α
  atan2 : α → α → α
  pi : α

/-- Python `math.degrees`. -/
def degrees_of {α : Type} [DivisionRing α] (G : real_ops_t α) (x : α) : α :=
  x * 180 / G.pi

/-- Python `math.radians`. -/
def radians_of {α : Type} [DivisionRing α] (G : real_ops_t α) (x : α) : α :=
  x * G.pi / 180

/-- Embedding of `_scale_mm_to_px`. -/
def scale_mm_to_px {α : Type} [LinearOrderedField α]
    (mm ref_mm ref_px : α) : α :=
  if ref_mm ≤ 0 then 0 else (mm / ref_mm) * ref_px

/-- Embedding of `_v_sub`. -/
def v_sub {α : Type} [Ring α] (a b : α × α) : α × α :=
  (a.1 - b.1, a.2 - b.2)

/-- Embedding of `_v_add`. -/
def v_add {α : Type} [Ring α] (a b : α × α) : α × α :=
  (a.1 + b.1, a.2 + b.2)

/-- Embedding of `_v_mul`. -/
def v_mul {α : Type} [Ring α] (a : α × α) (s : α) : α × α :=
  (a.1 * s, a.2 * s)

/-- Embedding of `_v_len`. -/
def v_len {α : Type} [Ring α] (G : real_ops_t α) (a : α × α) : α :=
  G.sqrt (a.1 * a.1 + a.2 * a.2)

/-- Embedding of `_v_unit`. -/
def v_unit {α : Type} [LinearOrderedField α] (G : real_ops_t α)
    (a : α × α) : α × α :=
  let l := v_len G a
  if l ≤ 1/1000000000 then (0, 0)
  else (a.1 / l, a.2 / l)

/-- Embedding of `_v_dot` exactly as written in `to204.py` line 144:
`(a[0] * a[0]) + (a[1] * b[1])`. -/
def v_dot {α : Type} [Ring α] (a b : α × α) : α :=
  a.1 * a.1 + a.2 * b.2

/-- The Euclidean dot product that the docstring of `_v_dot` describes. -/
def euclidean_dot {α : Type} [Ring α] (a b : α × α) : α :=
  a.1 * b.1 + a.2 * b.2

/-- Embedding of `_angle_deg_from_centre`. -/
def angle_deg_from_centre {α : Type} [DivisionRing α] (G : real_ops_t α)
    (centre point : α × α) : α :=
  degrees_of G (G.atan2 (point.2 - centre.2) (point.1 - centre.1))

/-- Embedding of `_rotate_point_about_centre_90_deg`. -/
def rotate_point_about_centre_90_deg {α : Type} [Ring α]
    (centre point : α × α) : α × α :=
  let dx := point.1 - centre.1
  let dy := point.2 - centre.2
  (centre.1 - dy, centre.2 + dx)

/-- Embedding of `_safe_corner_radius_for_diamond`. -/
def safe_corner_radius_for_diamond {α : Type} [LinearOrderedField α]
    (G : real_ops_t α) (tip_dx tip_dy requested_r : α) : α :=
  if requested_r ≤ 0 then 0
  else
    let top := ((0 : α), tip_dy)
    let right := (tip_dx, (0 : α))
    let bot := ((0 : α), -tip_dy)
    let left := (-tip_dx, (0 : α))
    let pts := [top, right, bot, left]
    let max_r := (List.range 4).foldl
      (fun max_r i =>
        let a := pts.getD i (0, 0)
        let b := pts.getD ((i + 1) % 4) (0, 0)
        min max_r (v_len G (v_sub b a) * (45/100)))
      requested_r
    clamp_float max_r 0 ((min tip_dx tip_dy) * (49/100))

/-- Embedding of `_fillet_arc_for_corner`: tangency points and arc
parameters for a filleted corner, or `none` when the fillet is disabled. -/
def fillet_arc_for_corner {α : Type} [LinearOrderedField α]
    (G : real_ops_t α) (prev_pt corner_pt next_pt : α × α) (radius : α) :
    Option ((α × α) × (α × α) × (α × α) × α × α) :=
  if radius ≤ 1/100 then none
  else
    let v_prev := v_sub prev_pt corner_pt
    let v_next := v_sub next_pt corner_pt
    let len_prev := v_len G v_prev
    let len_next := v_len G v_next
    if len_prev ≤ 1/1000000 ∨ len_next ≤ 1/1000000 then none
    else
      let v1 := v_unit G v_prev
      let v2 := v_unit G v_next
      let dot := clamp_float (v_dot v1 v2) (-1) 1
      let phi := G.acos dot
      if phi ≤ radians_of G 2 then none
      else if phi ≥ radians_of G 178 then none
      else
        let tan_half := G.tan (phi * (1/2))
        if |tan_half| ≤ 1/1000000 then none
        else
          let max_t_dist := (min len_prev len_next) * (49/100)
          let max_radius := max_t_dist * |tan_half|
          let radius := clamp_float radius 0 max_radius
          if radius ≤ 1/100 then none
          else
            let t_dist := radius / |tan_half|
            if t_dist ≥ max_t_dist then none
            else
              let offset := radius / max (G.sin (phi * (1/2))) (1/1000000)
              let bis := v_unit G (v_add v1 v2)
              let centre := v_add corner_pt (v_mul bis offset)
              let t1 := v_add corner_pt (v_mul v1 t_dist)
              let t2 := v_add corner_pt (v_mul v2 t_dist)
              let start_deg := angle_deg_from_centre G centre t1
              let u1 := v_sub t1 centre
              let u2 := v_sub t2 centre
              let cross := u1.1 * u2.2 - u1.2 * u2.1
              let dotp := u1.1 * u2.1 + u1.2 * u2.2
              let extent := degrees_of G (G.atan2 cross dotp)
              if |extent| ≤ 1/10 then none
              else some (t1, t2, centre, start_deg, extent)

/-- Embedding of `_path_arc_connected` (ReportLab paths expose `arcTo`). -/
def path_arc_connected {α : Type} (x1 y1 x2 y2 start_deg extent_deg : α) :
    List (path_op_t α) :=
  [path_op_t.arcTo x1 y1 x2 y2 start_deg extent_deg]

/-- Embedding of `_arc_params_from_centre`. -/
def arc_params_from_centre {α : Type} [DivisionRing α] (G : real_ops_t α)
    (arc_centre entry_pt exit_pt : α × α) : α × α :=
  let start_deg := angle_deg_from_centre G arc_centre entry_pt
  let u1 := v_sub entry_pt arc_centre
  let u2 := v_sub exit_pt arc_centre
  let cross := u1.1 * u2.2 - u1.2 * u2.1
  let dotp := u1.1 * u2.1 + u1.2 * u2.2
  (start_deg, degrees_of G (G.atan2 cross dotp))

/-- Embedding of `_tangent_points_from_external_point_to_circle`. -/
def tangent_points_from_external_point_to_circle {α : Type}
    [LinearOrderedField α] (G : real_ops_t α) (point circle_centre : α × α)
    (circle_r : α) : Option ((α × α) × (α × α)) :=
  let px := point.1
  let py := point.2
  let cx := circle_centre.1
  let cy := circle_centre.2
  let r := circle_r
  let vx := px - cx
  let vy := py - cy
  let d := G.sqrt (vx * vx + vy * vy)
  if r ≤ 1/1000000 ∨ d ≤ r + 1/1000000 then none
  else
    let ux := vx / d
    let uy := vy / d
    let alpha := G.acos (clamp_float (r / d) (-1) 1)
    let ca := G.cos alpha
    let sa := G.sin alpha
    let perp_x := -uy
    let perp_y := ux
    let p1 := (cx + r * (ux * ca + perp_x * sa), cy + r * (uy * ca + perp_y * sa))
    let p2 := (cx + r * (ux * ca - perp_x * sa), cy + r * (uy * ca - perp_y * sa))
    if p1.2 ≥ p2.2 then some (p1, p2) else some (p2, p1)

/-- Embedding of `_build_to3_outline_path`: the TO-3 outline as a path
segment list, falling back to the plain diamond polygon when tangent
construction from either side corner fails. -/
def build_to3_outline_path {α : Type} [LinearOrderedField α]
    (G : real_ops_t α)
    (cx cy tip_dx tip_dy variable_corner_r centre_arc_r : α) :
    List (path_op_t α) :=
  let centre := (cx, cy)
  let top0 := (cx, cy + tip_dy)
  let right0 := (cx + tip_dx, cy)
  let bot0 := (cx, cy - tip_dy)
  let left0 := (cx - tip_dx, cy)
  let pts0 := [top0, right0, bot0, left0]
  let pts := pts0.map (rotate_point_about_centre_90_deg centre)
  let left_corner_pt := pts.getD 0 (0, 0)
  let right_corner_pt := pts.getD 2 (0, 0)
  let variable_corner_r :=
    safe_corner_radius_for_diamond G tip_dx tip_dy variable_corner_r
  let centre_arc_r := clamp_float centre_arc_r 0 ((max tip_dx tip_dy) * 3)
  let left_tangents := tangent_points_from_external_point_to_circle G
    left_corner_pt centre centre_arc_r
  let right_tangents := tangent_points_from_external_point_to_circle G
    right_corner_pt centre centre_arc_r
  match left_tangents, right_tangents with
  | some lt, some rt =>
    let left_upper := lt.1
    let left_lower := lt.2
    let right_upper := rt.1
    let right_lower := rt.2
    let right_fillet := fillet_arc_for_corner G right_upper right_corner_pt
      right_lower variable_corner_r
    let left_fillet := fillet_arc_for_corner G left_lower left_corner_pt
      left_upper variable_corner_r
    let sd1 := arc_params_from_centre G centre left_upper right_upper
    let top_arc := path_arc_connected (centre.1 - centre_arc_r)
      (centre.2 - centre_arc_r) (centre.1 + centre_arc_r)
      (centre.2 + centre_arc_r) sd1.1 sd1.2
    let right_corner_ops :=
      match right_fillet with
      | none => [path_op_t.lineTo right_corner_pt.1 right_corner_pt.2]
      | some (t1, t2, arc_centre, start_deg, extent_deg) =>
        [path_op_t.lineTo t1.1 t1.2] ++
        path_arc_connected (arc_centre.1 - variable_corner_r)
          (arc_centre.2 - variable_corner_r)
          (arc_centre.1 + variable_corner_r)
          (arc_centre.2 + variable_corner_r) start_deg extent_deg ++
        [path_op_t.lineTo t2.1 t2.2]
    let sd2 := arc_params_from_centre G centre right_lower left_lower
    let bottom_arc := path_arc_connected (centre.1 - centre_arc_r)
      (centre.2 - centre_arc_r) (centre.1 + centre_arc_r)
      (centre.2 + centre_arc_r) sd2.1 sd2.2
    let left_corner_ops :=
      match left_fillet with
      | none => [path_op_t.lineTo left_corner_pt.1 left_corner_pt.2]
      | some (t1, t2, arc_centre, start_deg, extent_deg) =>
        [path_op_t.lineTo t1.1 t1.2] ++
        path_arc_connected (arc_centre.1 - variable_corner_r)
          (arc_centre.2 - variable_corner_r)
          (arc_centre.1 + variable_corner_r)
          (arc_centre.2 + variable_corner_r) start_deg extent_deg ++
        [path_op_t.lineTo t2.1 t2.2]
    [path_op_t.moveTo left_upper.1 left_upper.2] ++ top_arc ++
      right_corner_ops ++
      [path_op_t.lineTo right_lower.1 right_lower.2] ++ bottom_arc ++
      left_corner_ops ++
      [path_op_t.lineTo left_upper.1 left_upper.2, path_op_t.close]
  | _, _ =>
    [path_op_t.moveTo left_corner_pt.1 left_corner_pt.2,
     path_op_t.lineTo (pts.getD 1 (0, 0)).1 (pts.getD 1 (0, 0)).2,
     path_op_t.lineTo right_corner_pt.1 right_corner_pt.2,
     path_op_t.lineTo (pts.getD 3 (0, 0)).1 (pts.getD 3 (0, 0)).2,
     path_op_t.close]

/-! Path semantics: the current point and subpath start while executing a
segment list.  `close` draws back to the subpath start (PDF semantics),
`arcTo` leaves the current point at an arc-dependent position modelled as
unknown. -/

/-- Execution state of a path: current point and subpath start point. -/
structure path_state_t (α : Type) where
  current : Option (α × α)
  substart : Option (α × α)

/-- One step of path execution. -/
def path_step {α : Type} (s : path_state_t α) : path_op_t α → path_state_t α
  | .moveTo x y => ⟨some (x, y), some (x, y)⟩
  | .lineTo x y => ⟨some (x, y), s.substart⟩
  | .arcTo _ _ _ _ _ _ => ⟨none, s.substart⟩
  | .close => ⟨s.substart, s.substart⟩

/-- Execute a path from the empty state. -/
def path_run {α : Type} (ops : List (path_op_t α)) : path_state_t α :=
  ops.foldl path_step ⟨none, none⟩

/-- A path is closed when it opens a subpath with `moveTo` and execution
ends back at that first point. -/
def path_closed {α : Type} (ops : List (path_op_t α)) : Prop :=
  match ops.head? with
  | some (.moveTo x y) => (path_run ops).current = some (x, y)
  | _ => False

/-! Pin labelling and the TO-204 package drawer. -/

/-- The optional device-spec surface consumed by `_resolve_pin_labels`:
`pin_config` and `pin_labels` attributes, both optional. -/
structure device_spec_t where
  pin_config : Option String := none
  pin_labels : Option (List String) := none
  deriving DecidableEq, Repr

/-- Embedding of `_resolve_pin_labels`: device `pin_config` wins, then
device `pin_labels`, then positional numeric defaults (a leading body
label counts when `is_body_pin` is set).  Falsy attributes (absent, empty
string, empty list) fall through, as in Python. -/
def resolve_pin_labels (pin_count : ℤ) (spec : Option device_spec_t)
    (is_body_pin : Bool) : List String :=
  let total_labels := pin_count + (if is_body_pin then 1 else 0)
  let from_config : Option (List String) :=
    match spec with
    | some s =>
      match s.pin_config with
      | some pc => if pc = "" then none else some (parse_pin_config pc)
      | none => none
    | none => none
  match from_config with
  | some labels => labels
  | none =>
    let from_labels : Option (List String) :=
      match spec with
      | some s =>
        match s.pin_labels with
        | some ls => if ls = [] then none else some ls
        | none => none
      | none => none
    match from_labels with
    | some labels => labels
    | none => default_numeric_labels total_labels

/-- Embedding of `to204_dims_t` (defaults below). -/
structure to204_dims_t (α : Type) where
  body_tip_to_tip_mm : α
  body_flat_to_flat_mm : α
  body_corner_radius_mm : α
  body_centre_arc_radius_mm : α
  mount_hole_diameter_mm : α
  mount_hole_pitch_mm : α
  lead_count : ℤ
  lead_diameter_mm : α

/-- The default field values of `to204_dims_t` in `to204.py`. -/
def to204_dims_default (α : Type) [DivisionRing α] : to204_dims_t α :=
  ⟨3880/100, 2540/100, 440/100, 114/10, 410/100, 2540/100, 2, 1⟩

/-- Embedding of `tht_helpers.py` `draw_pin_with_ring`. -/
def draw_pin_with_ring {α : Type} [LinearOrderedField α]
    (x y pin_r ring_total_diameter_scale : α)
    (ring_rgb core_rgb : α × α × α) : List (canvas_op_t α) :=
  let core_r := clamp_float pin_r (1/10) 1000000000
  let scale := clamp_float ring_total_diameter_scale (105/100) 10
  let ring_outer_r := core_r * scale
  let ring_stroke := clamp_float (ring_outer_r - core_r) (4/10) (core_r * 6)
  let ring_draw_r := clamp_float (ring_outer_r - ring_stroke * (1/2))
    (core_r + 5/100) ring_outer_r
  [.save_state,
   .set_stroke_colour_rgb ring_rgb.1 ring_rgb.2.1 ring_rgb.2.2,
   .set_line_width ring_stroke,
   .circle x y ring_draw_r true false,
   .set_fill_colour_rgb core_rgb.1 core_rgb.2.1 core_rgb.2.2,
   .set_line_width (max (core_r * (15/100)) (6/10)),
   .circle x y core_r false true,
   .restore_state]

/-- Embedding of `tht_helpers.py` `draw_radial_pin_label`: no operation
when the pin sits at the package centre. -/
def draw_radial_pin_label {α : Type} [LinearOrderedField α]
    (G : real_ops_t α) (cx cy pin_x pin_y : α) (label : String)
    (font_size pad : α) : List (canvas_op_t α) :=
  let vx := pin_x - cx
  let vy := pin_y - cy
  let d := G.sqrt (vx * vx + vy * vy)
  if d ≤ 1/1000000 then []
  else
    let ux := vx / d
    let uy := vy / d
    let tx := pin_x + ux * pad
    let ty := pin_y + uy * pad
    [.draw_centred_string tx (ty - font_size * (35/100)) label]

/-- Embedding of the label loop of `draw_to204_package` (lines 691-713):
walk the drawn pin points with a running label index, stop as soon as the
index reaches the end of the label list, and fetch each label by index
(`none` models an out-of-range fetch, which the bound check prevents). -/
def to204_label_loop {α : Type} [LinearOrderedField α] (G : real_ops_t α)
    (cx cy : α) (final_labels : List String) (font_size radial_pad : α) :
    List (α × α) → ℕ → Option (List (canvas_op_t α))
  | [], _ => some []
  | p :: rest, label_index =>
    if label_index ≥ final_labels.length then some []
    else
      match final_labels.get? label_index with
      | none => none
      | some lab =>
        match to204_label_loop G cx cy final_labels font_size radial_pad
            rest (label_index + 1) with
        | none => none
        | some ops =>
          some (draw_radial_pin_label G cx cy p.1 p.2 (py_upper lab)
            font_size radial_pad ++ ops)

/-- Embedding of `draw_to204_package`: the TO-204 (TO-3) underside view
as the ordered list of canvas operations. -/
def draw_to204_package {α : Type} [LinearOrderedField α]
    (G : real_ops_t α) (rect : simple_rect α) (pin_count : ℤ)
    (pin_arc_start_deg pin_arc_stop_deg pin_diameter_mm : α)
    (is_body_pin : Bool) (device_spec : Option device_spec_t)
    (dims : Option (to204_dims_t α)) : Option (List (canvas_op_t α)) :=
  let pin_count := clamp_int pin_count 1 15
  let final_dims := dims.getD (to204_dims_default α)
  let final_labels := resolve_pin_labels pin_count device_spec is_body_pin
  let cx := rect.left + rect.width * (1/2)
  let cy := rect.bottom + rect.height * (1/2)
  let centre := (cx, cy)
  let ref_px := (min rect.width rect.height) * (175/100)
  let ref_mm := max final_dims.body_tip_to_tip_mm 1
  let tip_to_tip_px := scale_mm_to_px final_dims.body_tip_to_tip_mm ref_mm ref_px
  let flat_to_flat_px := scale_mm_to_px final_dims.body_flat_to_flat_mm ref_mm ref_px
  let variable_corner_r_px :=
    scale_mm_to_px final_dims.body_corner_radius_mm ref_mm ref_px
  let centre_arc_r_px :=
    scale_mm_to_px final_dims.body_centre_arc_radius_mm ref_mm ref_px
  let tip_dy := tip_to_tip_px * (1/2)
  let tip_dx := flat_to_flat_px * (1/2)
  let mount_hole_r :=
    scale_mm_to_px (final_dims.mount_hole_diameter_mm * (1/2)) ref_mm ref_px
  let mount_pitch := scale_mm_to_px final_dims.mount_hole_pitch_mm ref_mm ref_px
  let pin_diameter_mm := clamp_float pin_diameter_mm (6/10) (25/10)
  let pin_r := clamp_float
    (scale_mm_to_px (pin_diameter_mm * (1/2)) ref_mm ref_px)
    (ref_px * (12/1000)) (ref_px * (6/100))
  let base_path := build_to3_outline_path G cx cy tip_dx tip_dy
    variable_corner_r_px centre_arc_r_px
  let body_ops : List (canvas_op_t α) :=
    [.save_state,
     .set_fill_colour_rgb (78/100) (77/100) (76/100),
     .set_stroke_colour_rgb (68/100) (67/100) (66/100),
     .set_line_width 1,
     .draw_path base_path true true]
  let mount_top0 := (cx, cy + mount_pitch * (1/2))
  let mount_bot0 := (cx, cy - mount_pitch * (1/2))
  let mount_left := rotate_point_about_centre_90_deg centre mount_top0
  let mount_right := rotate_point_about_centre_90_deg centre mount_bot0
  let mount_ops : List (canvas_op_t α) :=
    [.set_fill_colour_rgb 1 1 1,
     .circle mount_left.1 mount_left.2 mount_hole_r false true,
     .circle mount_right.1 mount_right.2 mount_hole_r false true]
  let angles := linspace_angles_deg pin_count pin_arc_start_deg pin_arc_stop_deg
  let pin_ring_r := (min tip_dx tip_dy) * (50/100)
  let pin_points := angles.map (fun a_deg =>
    let a := radians_of G a_deg
    (cx + pin_ring_r * G.cos a, cy + pin_ring_r * G.sin a))
  let pin_ops := pin_points.map (fun p =>
    draw_pin_with_ring p.1 p.2 pin_r 4
      (1/10, 35/100, 9/10) (92/100, 92/100, 92/100))
  let font_size := clamp_float (rect.height * (20/100))
    (rect.height * (8/100)) (rect.height * (16/100))
  let text_ops : List (canvas_op_t α) :=
    [.set_font "Helvetica" font_size, .set_fill_colour_rgb 0 0 0]
  let radial_pad := max (pin_r * 4) (font_size * (11/10))
  let body_label_ops : List (canvas_op_t α) :=
    if is_body_pin ∧ final_labels.length ≥ 1 then
      match final_labels.head? with
      | some l =>
        let body_label := py_upper l
        let body_x := mount_right.1 - mount_hole_r * (22/10)
        let body_y := mount_right.2
        [.draw_right_string body_x (body_y - font_size * (35/100)) body_label]
      | none => []
    else []
  let label_index_offset : ℕ := if is_body_pin then 1 else 0
  match to204_label_loop G cx cy final_labels font_size radial_pad
      pin_points label_index_offset with
  | none => none
  | some loop_ops =>
    some (body_ops ++ mount_ops ++ pin_ops.flatten ++ text_ops ++
      body_label_ops ++ loop_ops ++ [.restore_state])

theorem dict_lookup_cons {β : Type} (e : String × β) (tl : dict_t β)
    (k : String) :
    dict_lookup (e :: tl) k = if e.1 = k then some e.2 else dict_lookup tl k := by
  by_cases h : e.1 = k
  · simp [dict_lookup, List.find?_cons_of_pos, h]
  · simp [dict_lookup, List.find?_cons_of_neg, h]

theorem dict_lookup_eq_none_of_not_contains {β : Type} {d : dict_t β}
    {k : String} (h : dict_contains d k = false) : dict_lookup d k = none := by
  induction d with
  | nil => rfl
  | cons e tl ih =>
    simp only [dict_contains, List.any_cons, Bool.or_eq_false_iff] at h
    have he : e.1 ≠ k := by
      intro hk
      simp [hk] at h
    rw [dict_lookup_cons]
    simp only [he, if_false]
    exact ih (by simpa [dict_contains] using h.2)

theorem dict_lookup_map_set_self {β : Type} (d : dict_t β) (k : String)
    (v : β) (h : dict_contains d k = true) :
    dict_lookup (d.map (fun e => if e.1 = k then (k, v) else e)) k = some v := by
  induction d with
  | nil => simp [dict_contains] at h
  | cons e tl ih =>
    by_cases he : e.1 = k
    · simp [List.map_cons, he, dict_lookup_cons]
    · have htl : dict_contains tl k = true := by
        simpa [dict_contains, List.any_cons, he] using h
      simp [List.map_cons, he, dict_lookup_cons, ih htl]

theorem dict_lookup_map_set_other {β : Type} (d : dict_t β) (k k' : String)
    (v : β) (h : k' ≠ k) :
    dict_lookup (d.map (fun e => if e.1 = k then (k, v) else e)) k' =
      dict_lookup d k' := by
  induction d with
  | nil => rfl
  | cons e tl ih =>
    by_cases he : e.1 = k
    · have hne : k ≠ k' := fun hk => h hk.symm
      have hek : e.1 ≠ k' := by rw [he]; exact hne
      simp [List.map_cons, he, dict_lookup_cons, hne, hek, ih]
    · simp [List.map_cons, he, dict_lookup_cons, ih]

theorem dict_lookup_append_single {β : Type} (d : dict_t β)
    (k k' : String) (v : β) :
    dict_lookup (d ++ [(k, v)]) k' =
      ((dict_lookup d k').elim (if k' = k then some v else none) some) := by
  induction d with
  | nil =>
    by_cases h : k = k'
    · simp [dict_lookup_cons, dict_lookup, h]
    · have h2 : k' ≠ k := fun hk => h hk.symm
      simp [dict_lookup_cons, dict_lookup, h, h2]
  | cons e tl ih =>
    by_cases he : e.1 = k'
    · simp [List.cons_append, dict_lookup_cons, he]
    · simp [List.cons_append, dict_lookup_cons, he, ih]

/-- Lookup after Python dictionary assignment: the assigned key reads the
new value, every other key is unchanged. -/
theorem dict_lookup_set {β : Type} (d : dict_t β) (k k' : String) (v : β) :
    dict_lookup (dict_set d k v) k' =
      if k' = k then some v else dict_lookup d k' := by
  unfold dict_set
  simp only [beq_iff_eq]
  by_cases hc : dict_contains d k
  · rw [if_pos hc]
    by_cases hk : k' = k
    · subst hk
      rw [if_pos rfl]
      exact dict_lookup_map_set_self d k' v hc
    · rw [if_neg hk]
      exact dict_lookup_map_set_other d k k' v hk
  · have hcf : dict_contains d k = false := by simpa using hc
    rw [if_neg hc, dict_lookup_append_single]
    by_cases hk : k' = k
    · subst hk
      rw [dict_lookup_eq_none_of_not_contains hcf]
      simp
    · cases hl : dict_lookup d k' <;> simp [hk]


/-- The recognised material qualifier tokens of `_apply_qualifiers`. -/
def material_tokens : List String :=
  ["glass", "epoxy", "blue", "metallic", "yellow"]

/-- The recognised finish qualifier tokens of `_apply_qualifiers`. -/
def finish_tokens : List String := ["fullpack", "insulated", "f"]

/-- The last recognised material token of a qualifier list, if any. -/
def last_material : List String → Option String
  | [] => none
  | q :: qs =>
    match last_material qs with
    | some m => some m
    | none => if q ∈ material_tokens then some q else none

/-- The unrecognised tokens of a qualifier list, in order. -/
def unrecognised_tokens (qs : List String) : List String :=
  qs.filter (fun q => decide (q ∉ material_tokens ∧ q ∉ finish_tokens))

theorem apply_qualifier_material (params : dict_t value_t) (q : String) :
    dict_lookup (apply_qualifier params q) "material" =
      if q ∈ material_tokens then some (.str q)
      else dict_lookup params "material" := by
  unfold apply_qualifier
  by_cases hm : q ∈ ["glass", "epoxy", "blue", "metallic", "yellow"]
  · simp [hm, material_tokens, dict_lookup_set]
  · by_cases hf : q ∈ ["fullpack", "insulated", "f"]
    · simp [hm, hf, material_tokens, dict_lookup_set]
    · simp only [hm, hf, if_false, material_tokens]
      cases hq : dict_lookup params "qualifiers" with
      | none => simp [hm, dict_lookup_set]
      | some v => cases v <;> simp [hm, hq, dict_lookup_set]

theorem apply_qualifier_tab_finish (params : dict_t value_t) (q : String) :
    dict_lookup (apply_qualifier params q) "tab_finish" =
      if q ∉ material_tokens ∧ q ∈ finish_tokens then
        some (.str "insulated")
      else dict_lookup params "tab_finish" := by
  unfold apply_qualifier
  by_cases hm : q ∈ ["glass", "epoxy", "blue", "metallic", "yellow"]
  · simp [hm, material_tokens, dict_lookup_set]
  · by_cases hf : q ∈ ["fullpack", "insulated", "f"]
    · simp [hm, hf, material_tokens, finish_tokens, dict_lookup_set]
    · simp only [hm, hf, if_false, material_tokens, finish_tokens]
      cases hq : dict_lookup params "qualifiers" with
      | none => simp [hm, hf, dict_lookup_set]
      | some v => cases v <;> simp [hm, hf, hq, dict_lookup_set]

theorem apply_qualifier_qualifiers (params : dict_t value_t) (q : String) :
    dict_lookup (apply_qualifier params q) "qualifiers" =
      if q ∈ material_tokens ∨ q ∈ finish_tokens then
        dict_lookup params "qualifiers"
      else
        match dict_lookup params "qualifiers" with
        | some (.strList xs) => some (.strList (xs ++ [q]))
        | none => some (.strList [q])
        | some v => some v := by
  unfold apply_qualifier
  by_cases hm : q ∈ ["glass", "epoxy", "blue", "metallic", "yellow"]
  · simp [hm, material_tokens, dict_lookup_set]
  · by_cases hf : q ∈ ["fullpack", "insulated", "f"]
    · simp [hm, hf, material_tokens, finish_tokens, dict_lookup_set]
    · simp only [hm, hf, if_false, material_tokens, finish_tokens]
      cases hq : dict_lookup params "qualifiers" with
      | none => simp [hm, hf, hq, dict_lookup_set]
      | some v => cases v <;> simp [hm, hf, hq, dict_lookup_set]

theorem apply_qualifiers_material (params : dict_t value_t)
    (qs : List String) :
    dict_lookup (apply_qualifiers params qs) "material" =
      match last_material qs with
      | some m => some (.str m)
      | none => dict_lookup params "material" := by
  induction qs generalizing params with
  | nil => simp [apply_qualifiers, last_material]
  | cons q qs ih =>
    rw [show apply_qualifiers params (q :: qs) =
      apply_qualifiers (apply_qualifier params q) qs from rfl]
    rw [ih]
    cases hlast : last_material qs with
    | some m => simp [last_material, hlast]
    | none =>
      by_cases hm : q ∈ material_tokens
      · simp [last_material, hlast, hm, apply_qualifier_material]
      · simp [last_material, hlast, hm, apply_qualifier_material]

theorem apply_qualifiers_tab_finish (params : dict_t value_t)
    (qs : List String) :
    dict_lookup (apply_qualifiers params qs) "tab_finish" =
      if qs.any (fun q => decide (q ∉ material_tokens ∧ q ∈ finish_tokens)) then
        some (.str "insulated")
      else dict_lookup params "tab_finish" := by
  induction qs generalizing params with
  | nil => simp [apply_qualifiers]
  | cons q qs ih =>
    rw [show apply_qualifiers params (q :: qs) =
      apply_qualifiers (apply_qualifier params q) qs from rfl, ih,
      List.any_cons]
    by_cases hrest :
        (qs.any fun q => decide (q ∉ material_tokens ∧ q ∈ finish_tokens)) = true
    · rw [if_pos hrest, hrest, Bool.or_true, if_pos rfl]
    · have hrf :
          (qs.any fun q => decide (q ∉ material_tokens ∧ q ∈ finish_tokens)) = false := by
        simpa using hrest
      rw [if_neg hrest, hrf, Bool.or_false, apply_qualifier_tab_finish]
      by_cases hq : q ∉ material_tokens ∧ q ∈ finish_tokens
      · rw [if_pos hq, if_pos (by simpa using hq)]
      · rw [if_neg hq, if_neg (by simpa using hq)]

theorem apply_qualifiers_qualifiers (params : dict_t value_t)
    (qs : List String) :
    dict_lookup (apply_qualifiers params qs) "qualifiers" =
      match dict_lookup params "qualifiers", unrecognised_tokens qs with
      | some (.strList xs), us => some (.strList (xs ++ us))
      | some v, _ => some v
      | none, [] => none
      | none, us => some (.strList us) := by
  induction qs generalizing params with
  | nil =>
    cases hq : dict_lookup params "qualifiers" with
    | none => simp [apply_qualifiers, unrecognised_tokens, hq]
    | some v => cases v <;> simp [apply_qualifiers, unrecognised_tokens, hq]
  | cons q qs ih =>
    rw [show apply_qualifiers params (q :: qs) =
      apply_qualifiers (apply_qualifier params q) qs from rfl]
    rw [ih]
    rw [apply_qualifier_qualifiers]
    by_cases hrec : q ∈ material_tokens ∨ q ∈ finish_tokens
    · have hu : unrecognised_tokens (q :: qs) = unrecognised_tokens qs := by
        rcases hrec with h | h <;> simp [unrecognised_tokens, h]
      rw [if_pos hrec, hu]
    · have hq1 : q ∉ material_tokens := fun h => hrec (Or.inl h)
      have hq2 : q ∉ finish_tokens := fun h => hrec (Or.inr h)
      have hu : unrecognised_tokens (q :: qs) = q :: unrecognised_tokens qs := by
        simp [unrecognised_tokens, hq1, hq2]
      rw [if_neg hrec, hu]
      cases hq : dict_lookup params "qualifiers" with
      | none =>
        cases hus : unrecognised_tokens qs <;> simp
      | some v =>
        cases v <;> simp


/-- C6: applying a qualifier token list during resolution (where no
registered parameter map carries a "qualifiers" key): the material slot
holds the last recognised material token (unchanged if none occurs),
any finish token reaching the finish branch sets tab_finish to
"insulated", the unrecognised tokens accumulate in input order into a
qualifiers list created on first use, and in particular applying
["glass", "blue"] leaves material = "blue". -/
theorem qualifier_application (params : dict_t value_t) (qs : List String)
    (h : dict_lookup params "qualifiers" = none) :
    (dict_lookup (apply_qualifiers params qs) "material" =
      match last_material qs with
      | some m => some (value_t.str m)
      | none => dict_lookup params "material") ∧
    (dict_lookup (apply_qualifiers params qs) "tab_finish" =
      if qs.any (fun q => decide (q ∉ material_tokens ∧ q ∈ finish_tokens)) then
        some (value_t.str "insulated")
      else dict_lookup params "tab_finish") ∧
    (dict_lookup (apply_qualifiers params qs) "qualifiers" =
      match unrecognised_tokens qs with
      | [] => none
      | us => some (value_t.strList us)) ∧
    dict_lookup (apply_qualifiers params ["glass", "blue"]) "material" =
      some (value_t.str "blue") := by
  refine ⟨apply_qualifiers_material params qs,
    apply_qualifiers_tab_finish params qs, ?_, ?_⟩
  · rw [apply_qualifiers_qualifiers, h]
    cases unrecognised_tokens qs <;> rfl
  · rw [apply_qualifiers_material]
    have hlast : last_material ["glass", "blue"] = some "blue" := by decide
    rw [hlast]

/-- C6 witness: the theorem applied to empty parameters and the token
list ["glass", "blue", "zz"]. -/
theorem qualifier_application_witness :
    dict_lookup ([] : dict_t value_t) "qualifiers" = none ∧
    dict_lookup (apply_qualifiers ([] : dict_t value_t)
      ["glass", "blue", "zz"]) "material" = some (value_t.str "blue") ∧
    dict_lookup (apply_qualifiers ([] : dict_t value_t)
      ["glass", "blue", "zz"]) "qualifiers" =
      some (value_t.strList ["zz"]) := by
  have h := qualifier_application ([] : dict_t value_t)
    ["glass", "blue", "zz"] rfl
  refine ⟨rfl, ?_, ?_⟩
  · rw [h.1]; decide
  · rw [h.2.2.1]; decide


/-- C5: for positive rectangle dimensions and positive scaled physical
dimensions, `scale_physical` returns exactly (w*k*f, h*k*f) with
f = min(1, rect.width/(w*k), rect.height/(h*k)); consequently neither
returned dimension exceeds the rectangle's corresponding dimension, nor
the requested w*k and h*k, and both are shrunk by the same factor. -/
theorem scale_physical_spec {α : Type} [LinearOrderedField α]
    (rect : simple_rect α) (mm_w mm_h k : α)
    (_hrw : 0 < rect.width) (_hrh : 0 < rect.height)
    (hw : 0 < mm_w * k) (hh : 0 < mm_h * k) :
    scale_physical rect mm_w mm_h k =
      (mm_w * k *
        min 1 (min (rect.width / (mm_w * k)) (rect.height / (mm_h * k))),
       mm_h * k *
        min 1 (min (rect.width / (mm_w * k)) (rect.height / (mm_h * k)))) ∧
    (scale_physical rect mm_w mm_h k).1 ≤ rect.width ∧
    (scale_physical rect mm_w mm_h k).2 ≤ rect.height ∧
    (scale_physical rect mm_w mm_h k).1 ≤ mm_w * k ∧
    (scale_physical rect mm_w mm_h k).2 ≤ mm_h * k := by
  have hFle1 :
      min (1 : α) (min (rect.width / (mm_w * k)) (rect.height / (mm_h * k))) ≤ 1 :=
    min_le_left _ _
  have hf_eq :
      (if mm_h * k > rect.height then
        min (if mm_w * k > rect.width then
          min (1 : α) (rect.width / (mm_w * k)) else 1)
          (rect.height / (mm_h * k))
       else (if mm_w * k > rect.width then
        min (1 : α) (rect.width / (mm_w * k)) else 1)) =
      min 1 (min (rect.width / (mm_w * k)) (rect.height / (mm_h * k))) := by
    by_cases hcw : mm_w * k > rect.width
    · by_cases hch : mm_h * k > rect.height
      · rw [if_pos hch, if_pos hcw, min_assoc]
      · rw [if_neg hch, if_pos hcw]
        have hWw : rect.width / (mm_w * k) < 1 := (div_lt_one hw).mpr hcw
        have hHh : 1 ≤ rect.height / (mm_h * k) :=
          (one_le_div hh).mpr (le_of_not_lt hch)
        rw [min_eq_left (le_trans hWw.le hHh)]
    · by_cases hch : mm_h * k > rect.height
      · rw [if_pos hch, if_neg hcw]
        have hWw : 1 ≤ rect.width / (mm_w * k) :=
          (one_le_div hw).mpr (le_of_not_lt hcw)
        have hHh : rect.height / (mm_h * k) < 1 := (div_lt_one hh).mpr hch
        rw [min_eq_right (le_trans hHh.le hWw)]
      · rw [if_neg hch, if_neg hcw]
        have hWw : 1 ≤ rect.width / (mm_w * k) :=
          (one_le_div hw).mpr (le_of_not_lt hcw)
        have hHh : 1 ≤ rect.height / (mm_h * k) :=
          (one_le_div hh).mpr (le_of_not_lt hch)
        rw [min_eq_left (le_min hWw hHh)]
  have hcode : scale_physical rect mm_w mm_h k =
      (if min (1 : α)
          (min (rect.width / (mm_w * k)) (rect.height / (mm_h * k))) < 1 then
        (mm_w * k *
          min 1 (min (rect.width / (mm_w * k)) (rect.height / (mm_h * k))),
         mm_h * k *
          min 1 (min (rect.width / (mm_w * k)) (rect.height / (mm_h * k))))
       else (mm_w * k, mm_h * k)) := by
    simp only [scale_physical]
    rw [hf_eq]
  have hmain : scale_physical rect mm_w mm_h k =
      (mm_w * k *
        min 1 (min (rect.width / (mm_w * k)) (rect.height / (mm_h * k))),
       mm_h * k *
        min 1 (min (rect.width / (mm_w * k)) (rect.height / (mm_h * k)))) := by
    by_cases hFlt :
        min (1 : α)
          (min (rect.width / (mm_w * k)) (rect.height / (mm_h * k))) < 1
    · rw [hcode, if_pos hFlt]
    · have hF1 :
          min (1 : α)
            (min (rect.width / (mm_w * k)) (rect.height / (mm_h * k))) = 1 :=
        le_antisymm hFle1 (le_of_not_lt hFlt)
      rw [hcode, if_neg hFlt, hF1, mul_one, mul_one]
  refine ⟨hmain, ?_, ?_, ?_, ?_⟩
  · rw [hmain]
    have h1 :
        min (1 : α)
          (min (rect.width / (mm_w * k)) (rect.height / (mm_h * k))) ≤
        rect.width / (mm_w * k) :=
      le_trans (min_le_right _ _) (min_le_left _ _)
    calc mm_w * k *
          min 1 (min (rect.width / (mm_w * k)) (rect.height / (mm_h * k)))
        ≤ mm_w * k * (rect.width / (mm_w * k)) :=
          mul_le_mul_of_nonneg_left h1 hw.le
      _ = rect.width := by field_simp
  · rw [hmain]
    have h1 :
        min (1 : α)
          (min (rect.width / (mm_w * k)) (rect.height / (mm_h * k))) ≤
        rect.height / (mm_h * k) :=
      le_trans (min_le_right _ _) (min_le_right _ _)
    calc mm_h * k *
          min 1 (min (rect.width / (mm_w * k)) (rect.height / (mm_h * k)))
        ≤ mm_h * k * (rect.height / (mm_h * k)) :=
          mul_le_mul_of_nonneg_left h1 hh.le
      _ = rect.height := by field_simp
  · rw [hmain]
    calc mm_w * k *
          min 1 (min (rect.width / (mm_w * k)) (rect.height / (mm_h * k)))
        ≤ mm_w * k * 1 := mul_le_mul_of_nonneg_left hFle1 hw.le
      _ = mm_w * k := mul_one _
  · rw [hmain]
    calc mm_h * k *
          min 1 (min (rect.width / (mm_w * k)) (rect.height / (mm_h * k)))
        ≤ mm_h * k * 1 := mul_le_mul_of_nonneg_left hFle1 hh.le
      _ = mm_h * k := mul_one _


/-- C5 witness: a 20mm x 5mm part at scale 1 in a 10 x 10 rectangle is
uniformly halved to (10, 5/2). -/
theorem scale_physical_spec_witness :
    scale_physical (⟨0, 0, 10, 10⟩ : simple_rect ℚ) 20 5 1 = (10, 5/2) := by
  have h := scale_physical_spec (⟨0, 0, 10, 10⟩ : simple_rect ℚ) 20 5 1
    (by norm_num) (by norm_num) (by norm_num) (by norm_num)
  rw [h.1]
  norm_num [min_def]

/-- C9: whenever the effective body length or body diameter of the
parameter map is zero or negative, `draw_axial_package` performs no
drawing operation and returns without error. -/
theorem draw_axial_degenerate_noop {α : Type} [LinearOrderedField α]
    (rect : simple_rect α) (info : dict_t value_t) (material : String)
    (show_labels : Bool) (string_width : String → String → α → α)
    (L D : α)
    (hL : py_float α
      (dict_get info "body_length" (dict_get info "len" (.num 0))) = some L)
    (hD : py_float α
      (dict_get info "body_diameter" (dict_get info "dia" (.num 0))) = some D)
    (hdeg : L ≤ 0 ∨ D ≤ 0) :
    draw_axial_package rect info material show_labels string_width = some [] := by
  unfold draw_axial_package
  rw [hL, hD]
  exact if_pos hdeg

/-- C9 witness: the theorem applied to a parameter map with
body_length = 0. -/
theorem draw_axial_degenerate_noop_witness :
    draw_axial_package (⟨0, 0, 100, 50⟩ : simple_rect ℚ)
      [("body_length", .num 0), ("body_diameter", .num 1)] "epoxy" true
      (fun _ _ _ => 0) = some [] :=
  draw_axial_degenerate_noop _ _ _ _ _
    (pyfloat_val ℚ ⟨0, 0⟩) (pyfloat_val ℚ ⟨1, 0⟩) rfl rfl
    (Or.inl (by norm_num [pyfloat_val]))


/-! Theorems.  The helper lemmas first relate the seeded registry to its
literal form so that concrete evaluations stay within kernel reach. -/

set_option maxRecDepth 8000

/-- The seeding functions produce exactly the literal tables. -/
theorem db_eq : PACKAGE_DB = db_lit := by decide

/-- The seeded alias table in literal form. -/
theorem aliases_lit_eq : PACKAGE_ALIASES = db_lit.aliases := by
  unfold PACKAGE_ALIASES; rw [db_eq]

/-- The seeded variant table in literal form. -/
theorem variants_lit_eq : PACKAGE_VARIANTS = db_lit.variants := by
  unfold PACKAGE_VARIANTS; rw [db_eq]

/-- The seeded outline table in literal form. -/
theorem outlines_lit_eq : OUTLINES = db_lit.outlines := by
  unfold OUTLINES; rw [db_eq]

/-- Resolution over the seeded registry equals resolution over the
literal tables. -/
theorem resolve_package_lit (raw : String) :
    resolve_package raw = resolve_package_db db_lit raw := by
  unfold resolve_package; rw [db_eq]

/-- C1: the family dispatch table cannot invoke `draw_axial_package`
without raising: `registry.py` line 11 imports it from the module
`src.packages.diode_axial`, which is not among the modules of
`src/packages/` (the file is `axial_diode.py`), so importing the dispatch
table raises `ModuleNotFoundError`; moreover `_draw_axial_round_body`
passes the keyword argument `show_polarity_band`, which is not a
parameter of `draw_axial_package`, so the call would raise `TypeError`
even with the import repaired. -/
theorem axial_dispatch_import_and_signature_mismatch :
    registry_axial_import_module ∉ packages_module_files ∧
    "show_polarity_band" ∈ registry_axial_call_keyword_arguments ∧
    "show_polarity_band" ∉ draw_axial_package_parameters := by
  decide

/-- C3: `_v_dot` does not compute the Euclidean dot product and is not
symmetric: at a = (1,0), b = (0,1) it returns 1 (the Euclidean dot
product is 0), while swapping the arguments returns 0. -/
theorem v_dot_not_dot_product :
    v_dot ((1 : ℚ), 0) (0, 1) = 1 ∧
    euclidean_dot ((1 : ℚ), 0) (0, 1) = 0 ∧
    v_dot ((0 : ℚ), 1) (1, 0) = 0 ∧
    v_dot ((1 : ℚ), 0) (0, 1) ≠ euclidean_dot ((1 : ℚ), 0) (0, 1) ∧
    v_dot ((1 : ℚ), 0) (0, 1) ≠ v_dot ((0 : ℚ), 1) (1, 0) := by
  norm_num [v_dot, euclidean_dot]

/-- C2 counterexample: the alias table maps "LED5MM" to the canonical id
"5MM ROUND T/H", but resolving that canonical id itself fails (its
normalised lookup key "5MMROUNDT/H" is not a key of any table), so
`resolve(c)` does not succeed for this registered alias target. -/
theorem alias_canonical_id_unresolvable_counterexample :
    dict_lookup PACKAGE_ALIASES "LED5MM" = some "5MM ROUND T/H" ∧
    resolve_package "5MM ROUND T/H" = none := by
  constructor
  · rw [aliases_lit_eq]; decide
  · rw [resolve_package_lit]; decide

/-- C2 (amended): for every entry (a, c) of the seeded alias table,
`resolve(a)` succeeds with canonical id and print id both equal to c; and
for every such entry except those targeting "5MM ROUND T/H" (whose
canonical id contains spaces and is therefore unreachable through the
space-stripping lookup normalisation), `resolve(c)` also succeeds and
agrees with `resolve(a)` on the print id. -/
theorem alias_resolution_amended :
    ∀ e ∈ PACKAGE_ALIASES,
      ((resolve_package e.1).map (fun r => r.canonical_id)) = some e.2 ∧
      ((resolve_package e.1).map (fun r => r.print_id)) = some e.2 ∧
      (e.2 ≠ "5MM ROUND T/H" →
        (resolve_package e.2).isSome = true ∧
        ((resolve_package e.2).map (fun r => r.print_id)) =
          ((resolve_package e.1).map (fun r => r.print_id))) := by
  have h : ∀ e ∈ db_lit.aliases,
      ((resolve_package_db db_lit e.1).map (fun r => r.canonical_id)) = some e.2 ∧
      ((resolve_package_db db_lit e.1).map (fun r => r.print_id)) = some e.2 ∧
      (e.2 ≠ "5MM ROUND T/H" →
        (resolve_package_db db_lit e.2).isSome = true ∧
        ((resolve_package_db db_lit e.2).map (fun r => r.print_id)) =
          ((resolve_package_db db_lit e.1).map (fun r => r.print_id))) := by
    decide
  intro e he
  rw [aliases_lit_eq] at he
  simpa only [resolve_package_lit] using h e he

/-- C2 witness: the amended statement applied to the concrete alias
entry ("DO-35", "DO-204-AH"). -/
theorem alias_resolution_amended_witness :
    ("DO-35", "DO-204-AH") ∈ PACKAGE_ALIASES ∧
    ((resolve_package "DO-35").map (fun r => r.canonical_id)) = some "DO-204-AH" := by
  have hmem : ("DO-35", "DO-204-AH") ∈ PACKAGE_ALIASES := by
    rw [aliases_lit_eq]; decide
  exact ⟨hmem, (alias_resolution_amended ("DO-35", "DO-204-AH") hmem).1⟩

/-- C4: for every entry of the seeded variant table with record
(base_id b, print id, overrides O): resolving the variant key yields
canonical id b; every key of O reads back its override value; every key
of b's base parameter map not overridden reads back the base value.  In
particular "TO-220-5" resolves to canonical id "TO-220-AB", print id
"TO-220-AB-5L" and pin_count 5. -/
theorem variant_resolution_correct :
    (∀ e ∈ PACKAGE_VARIANTS,
      ((resolve_package e.1).map (fun r => r.canonical_id)) = some e.2.base_id ∧
      (∀ p ∈ e.2.overrides,
        ((resolve_package e.1).bind (fun r => dict_lookup r.params p.1)) = some p.2) ∧
      (∀ p ∈ (((dict_lookup OUTLINES e.2.base_id).bind (fun o => o.params)).getD []),
        dict_lookup e.2.overrides p.1 = none →
          ((resolve_package e.1).bind (fun r => dict_lookup r.params p.1)) = some p.2)) ∧
    ((resolve_package "TO-220-5").map (fun r => r.canonical_id)) = some "TO-220-AB" ∧
    ((resolve_package "TO-220-5").map (fun r => r.print_id)) = some "TO-220-AB-5L" ∧
    ((resolve_package "TO-220-5").bind (fun r => dict_lookup r.params "pin_count")) =
      some (value_t.num 5) := by
  have h : ∀ e ∈ db_lit.variants,
      ((resolve_package_db db_lit e.1).map (fun r => r.canonical_id)) = some e.2.base_id ∧
      (∀ p ∈ e.2.overrides,
        ((resolve_package_db db_lit e.1).bind (fun r => dict_lookup r.params p.1)) = some p.2) ∧
      (∀ p ∈ (((dict_lookup db_lit.outlines e.2.base_id).bind (fun o => o.params)).getD []),
        dict_lookup e.2.overrides p.1 = none →
          ((resolve_package_db db_lit e.1).bind (fun r => dict_lookup r.params p.1)) = some p.2) := by
    decide
  refine ⟨?_, ?_, ?_, ?_⟩
  · intro e he
    rw [variants_lit_eq] at he
    have := h e he
    simpa only [resolve_package_lit, outlines_lit_eq] using this
  · rw [resolve_package_lit]; decide
  · rw [resolve_package_lit]; decide
  · rw [resolve_package_lit]; decide

/-- C4 witness: the table-quantified part applied to the concrete
variant entry "TO-218-5". -/
theorem variant_resolution_correct_witness :
    ("TO-218-5", (⟨"TO-218-AA", "TO-218-5",
        [("pin_count", value_t.num 5), ("tab_is_pin", value_t.boolean true)]⟩ : variant_t))
      ∈ PACKAGE_VARIANTS ∧
    ((resolve_package "TO-218-5").map (fun r => r.canonical_id)) = some "TO-218-AA" := by
  have hmem : ("TO-218-5", (⟨"TO-218-AA", "TO-218-5",
      [("pin_count", value_t.num 5), ("tab_is_pin", value_t.boolean true)]⟩ : variant_t))
      ∈ PACKAGE_VARIANTS := by
    rw [variants_lit_eq]; decide
  exact ⟨hmem, (variant_resolution_correct.1 _ hmem).1⟩

/-- C8: resolution is total and returns an absent result both when the
normalised base key is missing from the variant, alias and outline
tables, and when a matched variant record carries a base id with no
outline record; the concrete unknown key "UNKNOWNPKG123" resolves to
`none` on the seeded registry. -/
theorem resolve_unknown_returns_none :
    (∀ (db : db_t) (raw : String),
      dict_lookup db.variants (normalise_lookup (split_qualifiers raw).1) = none →
      dict_lookup db.aliases (normalise_lookup (split_qualifiers raw).1) = none →
      dict_contains db.outlines (normalise_lookup (split_qualifiers raw).1) = false →
      resolve_package_db db raw = none) ∧
    (∀ (db : db_t) (raw : String) (v : variant_t),
      dict_lookup db.variants (normalise_lookup (split_qualifiers raw).1) = some v →
      dict_lookup db.outlines v.base_id = none →
      resolve_package_db db raw = none) ∧
    resolve_package "UNKNOWNPKG123" = none := by
  refine ⟨?_, ?_, ?_⟩
  · intro db raw h1 h2 h3
    simp only [resolve_package_db, resolve_to_ids_and_overrides, h1, h2, h3]
    simp
  · intro db raw v h1 h2
    by_cases hb : v.base_id = ""
    · simp only [resolve_package_db, resolve_to_ids_and_overrides, h1, hb]
      simp
    · simp only [resolve_package_db, resolve_to_ids_and_overrides, h1, h2]
      simp [hb]
  · rw [resolve_package_lit]; decide

/-- C8 witness: the two general parts applied to concrete inputs, with
every hypothesis discharged by evaluation: the empty registry misses any
key, and a registry holding only a dangling variant (base id "MISSING"
without an outline record) also resolves to `none`. -/
theorem resolve_unknown_returns_none_witness :
    resolve_package_db ⟨[], [], []⟩ "NOPE" = none ∧
    resolve_package_db ⟨[], [], [("V", ⟨"MISSING", "V", []⟩)]⟩ "V" = none := by
  constructor
  · exact resolve_unknown_returns_none.1 ⟨[], [], []⟩ "NOPE"
      (by decide) (by decide) (by decide)
  · exact resolve_unknown_returns_none.2.1
      ⟨[], [], [("V", ⟨"MISSING", "V", []⟩)]⟩ "V" ⟨"MISSING", "V", []⟩
      (by decide) (by decide)


/-- C7: for every choice of transcendental operations and all inputs, the
TO-204 outline builder returns a closed path (it opens with `moveTo` and
execution, with `close` returning to the subpath start, ends at that
first point); and whenever tangent construction from the rotated left or
right corner to the clamped centre circle is infeasible (returns `none`),
the builder returns exactly the plain 4-point diamond polygon.  All
coordinates live in a field, so no NaN value is representable, and
totality of the definition stands for raising no exception. -/
theorem to3_outline_closed_and_fallback {α : Type} [LinearOrderedField α]
    (G : real_ops_t α)
    (cx cy tip_dx tip_dy variable_corner_r centre_arc_r : α) :
    path_closed (build_to3_outline_path G cx cy tip_dx tip_dy
      variable_corner_r centre_arc_r) ∧
    ((tangent_points_from_external_point_to_circle G (cx - tip_dy, cy)
        (cx, cy) (clamp_float centre_arc_r 0 ((max tip_dx tip_dy) * 3)) =
          none ∨
      tangent_points_from_external_point_to_circle G (cx + tip_dy, cy)
        (cx, cy) (clamp_float centre_arc_r 0 ((max tip_dx tip_dy) * 3)) =
          none) →
      build_to3_outline_path G cx cy tip_dx tip_dy variable_corner_r
          centre_arc_r =
        [path_op_t.moveTo (cx - tip_dy) cy,
         path_op_t.lineTo cx (cy + tip_dx),
         path_op_t.lineTo (cx + tip_dy) cy,
         path_op_t.lineTo cx (cy - tip_dx),
         path_op_t.close]) := by
  constructor
  · unfold build_to3_outline_path
    simp only [List.map_cons, List.map_nil, List.getD_cons_zero,
      List.getD_cons_succ]
    split
    · split
      · split
        · simp [path_closed, path_run, path_step, path_arc_connected]
        · simp [path_closed, path_run, path_step, path_arc_connected]
      · split
        · simp [path_closed, path_run, path_step, path_arc_connected]
        · simp [path_closed, path_run, path_step, path_arc_connected]
    · simp [path_closed, path_run, path_step]
  · intro h
    unfold build_to3_outline_path
    simp only [List.map_cons, List.map_nil, List.getD_cons_zero,
      List.getD_cons_succ]
    split
    · rename_i lt rt hlt hrt
      simp only [rotate_point_about_centre_90_deg, add_sub_cancel_left,
        sub_self, add_zero, sub_sub_cancel_left, sub_neg_eq_add] at hlt hrt
      rcases h with h | h
      · rw [h] at hlt
        exact Option.noConfusion hlt
      · rw [h] at hrt
        exact Option.noConfusion hrt
    · simp [rotate_point_about_centre_90_deg, add_sub_cancel_left,
        sub_self, add_zero, sub_sub_cancel_left, sub_neg_eq_add,
        ← sub_eq_add_neg]

/-- C7 witness: with centre arc radius clamped to 0 the tangent
construction is infeasible, and the builder returns the closed 4-point
diamond. -/
theorem to3_outline_closed_and_fallback_witness :
    path_closed (build_to3_outline_path
      (⟨fun _ => 0, fun _ => 0, fun _ => 0, fun _ => 0, fun _ => 0,
        fun _ _ => 0, 0⟩ : real_ops_t ℚ) 0 0 1 1 1 0) ∧
    build_to3_outline_path
      (⟨fun _ => 0, fun _ => 0, fun _ => 0, fun _ => 0, fun _ => 0,
        fun _ _ => 0, 0⟩ : real_ops_t ℚ) 0 0 1 1 1 0 =
      [path_op_t.moveTo (0 - 1) 0, path_op_t.lineTo 0 (0 + 1),
       path_op_t.lineTo (0 + 1) 0, path_op_t.lineTo 0 (0 - 1),
       path_op_t.close] := by
  have h := to3_outline_closed_and_fallback
    (⟨fun _ => 0, fun _ => 0, fun _ => 0, fun _ => 0, fun _ => 0,
      fun _ _ => 0, 0⟩ : real_ops_t ℚ) 0 0 1 1 1 0
  refine ⟨h.1, h.2 (Or.inl ?_)⟩
  norm_num [tangent_points_from_external_point_to_circle, clamp_float]


/-- Recognise a `circle` canvas operation. -/
def is_circle_op {α : Type} : canvas_op_t α → Bool
  | .circle _ _ _ _ _ => true
  | _ => false

theorem countP_circle_pin_ring {α : Type} [LinearOrderedField α]
    (x y pin_r s : α) (rc cc : α × α × α) :
    (draw_pin_with_ring x y pin_r s rc cc).countP is_circle_op = 2 := by
  simp [draw_pin_with_ring, is_circle_op, List.countP_cons]

theorem countP_circle_radial_label {α : Type} [LinearOrderedField α]
    (G : real_ops_t α) (cx cy px py : α) (lab : String) (fs pad : α) :
    (draw_radial_pin_label G cx cy px py lab fs pad).countP is_circle_op = 0 := by
  simp only [draw_radial_pin_label]
  split <;> simp [is_circle_op, List.countP_cons]

theorem countP_circle_pin_ops {α : Type} [LinearOrderedField α]
    (pin_r s : α) (rc cc : α × α × α) (pts : List (α × α)) :
    ((pts.map (fun p => draw_pin_with_ring p.1 p.2 pin_r s rc cc)).flatten).countP
      is_circle_op = 2 * pts.length := by
  induction pts with
  | nil => simp
  | cons p rest ih =>
    simp [List.countP_append, ih, countP_circle_pin_ring, Nat.mul_succ]
    omega

theorem linspace_angles_length {α : Type} [LinearOrderedField α]
    (count : ℤ) (s e : α) :
    (linspace_angles_deg count s e).length = (clamp_int count 1 32).toNat := by
  simp only [linspace_angles_deg]
  by_cases h : clamp_int count 1 32 = 1
  · simp [h]
  · rw [if_neg h, List.length_map, List.length_range]

theorem clamp_int_idem_15_32 (x : ℤ) :
    clamp_int (clamp_int x 1 15) 1 32 = clamp_int x 1 15 := by
  unfold clamp_int
  split_ifs <;> omega

theorem to204_label_loop_eq {α : Type} [LinearOrderedField α]
    (G : real_ops_t α) (cx cy : α) (labels : List String) (fs pad : α)
    (pts : List (α × α)) (li : ℕ) :
    to204_label_loop G cx cy labels fs pad pts li =
      some ((List.zipWith (fun p lab =>
        draw_radial_pin_label G cx cy p.1 p.2 (py_upper lab) fs pad)
        pts (labels.drop li)).flatten) := by
  induction pts generalizing li with
  | nil => simp [to204_label_loop]
  | cons p rest ih =>
    rw [to204_label_loop]
    by_cases hli : li ≥ labels.length
    · rw [if_pos hli]
      have hdrop : labels.drop li = [] := List.drop_eq_nil_of_le hli
      simp [hdrop]
    · rw [if_neg hli]
      push_neg at hli
      have hget : labels.get? li = some (labels.get ⟨li, hli⟩) :=
        List.get?_eq_get hli
      have hdrop : labels.drop li =
          labels.get ⟨li, hli⟩ :: labels.drop (li + 1) :=
        List.drop_eq_get_cons hli
      rw [hget, ih (li + 1)]
      conv_rhs => rw [hdrop]
      rfl

theorem to204_loop_ops_no_circle {α : Type} [LinearOrderedField α]
    (G : real_ops_t α) (cx cy : α) (fs pad : α)
    (pts : List (α × α)) (labs : List String) :
    ((List.zipWith (fun p lab =>
        draw_radial_pin_label G cx cy p.1 p.2 (py_upper lab) fs pad)
      pts labs).flatten).countP is_circle_op = 0 := by
  induction pts generalizing labs with
  | nil => simp
  | cons p rest ih =>
    cases labs with
    | nil => simp
    | cons lab ltl =>
      simp [List.countP_append, ih, countP_circle_radial_label]


/-- C10: for every pin count and device spec (including specs yielding
fewer labels than drawn pins), `draw_to204_package` returns normally with
exactly 2 mounting-hole circles plus 2 circles per drawn pin (the pin
count clamped to 1..15, so every pin is drawn), and the label loop
produces exactly one radial-label call per leading pin that has a label
(the pin points zipped with the labels from the body-pin offset onward),
never fetching a label index out of range. -/
theorem to204_draw_pins_and_labels {α : Type} [LinearOrderedField α]
    (G : real_ops_t α) (rect : simple_rect α) (pin_count : ℤ)
    (sdeg edeg pdmm : α) (is_body_pin : Bool)
    (spec : Option device_spec_t) (dims : Option (to204_dims_t α))
    (cx cy : α) (labels : List String) (fs pad : α)
    (pts : List (α × α)) (li : ℕ) :
    ((draw_to204_package G rect pin_count sdeg edeg pdmm is_body_pin
        spec dims).map (fun ops => ops.countP is_circle_op)) =
      some (2 + 2 * (clamp_int pin_count 1 15).toNat) ∧
    to204_label_loop G cx cy labels fs pad pts li =
      some ((List.zipWith (fun p lab =>
        draw_radial_pin_label G cx cy p.1 p.2 (py_upper lab) fs pad)
        pts (labels.drop li)).flatten) := by
  constructor
  · simp only [draw_to204_package]
    rw [to204_label_loop_eq]
    simp only [Option.map_some', Option.some.injEq, List.countP_append,
      countP_circle_pin_ops, to204_loop_ops_no_circle, List.length_map,
      linspace_angles_length, clamp_int_idem_15_32]
    split
    · split <;> simp [is_circle_op, List.countP_cons]
    · simp [is_circle_op, List.countP_cons]
  · exact to204_label_loop_eq G cx cy labels fs pad pts li

end PARTS
